import Mathlib

/-!
# go-dynamodb-crud: handlers of `main.go` over a model of their two libraries

`main.go` holds four HTTP handlers (`createItem`, `getItem`, `updateItem`,
`deleteItem`) and the start-up routine `createTableIfNotExists`.  Each of them
is embedded below as a pure function.  What they call but do not define is
modelled next to them:

* `encoding/json`: `Decode` reads the first JSON value of the request body and
  stores it into an `Item` the way `json.NewDecoder(r.Body).Decode(&item)` does;
* the DynamoDB client `svc`: the table is a list of items keyed by the
  attribute `ID`; every call takes the error the service answers with (`none`
  when the request is accepted), so that validation, throttling and transport
  failures are inputs of the model and not computed by it.  A call that is
  accepted acts on the table at once and a read sees the last write: the
  consistency and the timing of the service are not modelled.  The one refusal
  that meets every request of a handler, the reserved word in the expression
  of `updateItem`, is given by `reservedWordVerdict`.

A request body is a `String`, that is, well-formed Unicode text.
-/

namespace GoDynamoDBCrud

/-! ## The data model of `main.go` -/

/-- The struct `Item` of `main.go`, with JSON keys `id`, `name`, `email`. -/
structure Item where
  ID : String
  Name : String
  Email : String
deriving DecidableEq, Repr

/-- The value of `var item Item`: every field is the empty string. -/
def Item.zero : Item := ⟨"", "", ""⟩

/-! ## `encoding/json`: reading the request body -/

/-- A JSON value as read from the body. -/
inductive JSON where
  | null
  | bool (b : Bool)
  | number (literal : List Char)
  | string (s : String)
  | array (elems : List JSON)
  | object (members : List (String × JSON))

/-- The error `Decode` returns: no complete JSON value could be read
(`SyntaxError`, `io.EOF`, `io.ErrUnexpectedEOF`), or a value did not fit its Go
target (`UnmarshalTypeError`, naming the JSON kind and the JSON key of the field, the
empty key for the item as a whole). -/
inductive DecodeError where
  | malformed
  | unmarshalType (value : String) (field : String)
deriving DecidableEq, Repr

/-- The four bytes the scanner skips between tokens. -/
def isSpace (c : Char) : Bool :=
  c = ' ' || c = '\t' || c = '\r' || c = '\n'

def skipSpace : List Char → List Char
  | [] => []
  | c :: cs => if isSpace c then skipSpace cs else c :: cs

def isDigit (c : Char) : Bool := '0' ≤ c && c ≤ '9'

def hexVal (c : Char) : Option Nat :=
  if '0' ≤ c && c ≤ '9' then some (c.toNat - 48)
  else if 'a' ≤ c && c ≤ 'f' then some (c.toNat - 87)
  else if 'A' ≤ c && c ≤ 'F' then some (c.toNat - 55)
  else none

/-- Four hexadecimal digits (`getu4` without the leading `\u`). -/
def hex4 : List Char → Option (Nat × List Char)
  | a :: b :: c :: d :: rest =>
    match hexVal a, hexVal b, hexVal c, hexVal d with
    | some x, some y, some z, some w => some (((x * 16 + y) * 16 + z) * 16 + w, rest)
    | _, _, _, _ => none
  | _ => none

/-- The Unicode replacement character written for an unpaired surrogate. -/
def replacementChar : Char := Char.ofNat 0xFFFD

/-- The double quote that opens and closes a string literal. -/
def quoteChar : Char := Char.ofNat 34

/-- The backslash that starts an escape sequence. -/
def escapeChar : Char := Char.ofNat 92

/-- The rest of a string literal, after its opening quote.  `acc` holds the
characters read so far, last first. -/
def readString : Nat → List Char → List Char → Option (String × List Char)
  | 0, _, _ => none
  | _ + 1, [], _ => none
  | fuel + 1, c :: cs, acc =>
    if c = quoteChar then some (String.mk acc.reverse, cs)
    else if c = escapeChar then
      match cs with
      | [] => none
      | e :: rest =>
        if e = quoteChar then readString fuel rest (quoteChar :: acc)
        else if e = escapeChar then readString fuel rest (escapeChar :: acc)
        else if e = '/' then readString fuel rest ('/' :: acc)
        else if e = 'b' then readString fuel rest (Char.ofNat 8 :: acc)
        else if e = 'f' then readString fuel rest (Char.ofNat 12 :: acc)
        else if e = 'n' then readString fuel rest ('\n' :: acc)
        else if e = 'r' then readString fuel rest ('\r' :: acc)
        else if e = 't' then readString fuel rest ('\t' :: acc)
        else if e = 'u' then
          match hex4 rest with
          | none => none
          | some (r, rest1) =>
            if 0xD800 ≤ r && r < 0xE000 then
              -- a surrogate: joined with a following low surrogate, else replaced
              match rest1 with
              | b :: u :: rest2 =>
                if b = escapeChar && u = 'u' then
                  match hex4 rest2 with
                  | some (r1, rest3) =>
                    if r < 0xDC00 && 0xDC00 ≤ r1 && r1 < 0xE000 then
                      readString fuel rest3
                        (Char.ofNat ((r - 0xD800) * 1024 + (r1 - 0xDC00) + 0x10000) :: acc)
                    else readString fuel rest1 (replacementChar :: acc)
                  | none => readString fuel rest1 (replacementChar :: acc)
                else readString fuel rest1 (replacementChar :: acc)
              | _ => readString fuel rest1 (replacementChar :: acc)
            else readString fuel rest1 (Char.ofNat r :: acc)
        else none
    else if c.toNat < 0x20 then none
    else readString fuel cs (c :: acc)

/-- A maximal run of decimal digits. -/
def takeDigits : List Char → List Char × List Char
  | [] => ([], [])
  | c :: cs =>
    if isDigit c then
      let r := takeDigits cs
      (c :: r.1, r.2)
    else ([], c :: cs)

/-- The exponent part of a number, if one starts here. -/
def readExponent (cs : List Char) : Option (List Char × List Char) :=
  match cs with
  | e :: rest =>
    if e = 'e' || e = 'E' then
      let signed : List Char × List Char :=
        match rest with
        | s :: rest1 => if s = '+' || s = '-' then ([s], rest1) else ([], rest)
        | [] => ([], rest)
      match takeDigits signed.2 with
      | ([], _) => none
      | (ds, rest2) => some (e :: signed.1 ++ ds, rest2)
    else some ([], cs)
  | [] => some ([], cs)

/-- The fraction part of a number, if one starts here. -/
def readFraction (cs : List Char) : Option (List Char × List Char) :=
  match cs with
  | '.' :: rest =>
    match takeDigits rest with
    | ([], _) => none
    | (ds, rest1) => some ('.' :: ds, rest1)
  | _ => some ([], cs)

/-- The digits of a number after its optional minus sign. -/
def readUnsigned (cs : List Char) : Option (List Char × List Char) :=
  match cs with
  | [] => none
  | c :: rest =>
    if c = '0' then
      (readFraction rest).bind fun f =>
        (readExponent f.2).map fun e => (c :: f.1 ++ e.1, e.2)
    else if isDigit c then
      let ds := takeDigits rest
      (readFraction ds.2).bind fun f =>
        (readExponent f.2).map fun e => (c :: ds.1 ++ f.1 ++ e.1, e.2)
    else none

/-- A number literal starting at the head of the input. -/
def readNumber (cs : List Char) : Option (List Char × List Char) :=
  match cs with
  | '-' :: rest => (readUnsigned rest).map fun r => ('-' :: r.1, r.2)
  | _ => readUnsigned cs

/-- The input without the given word in front of it, when it starts with it. -/
def stripWord : List Char → List Char → Option (List Char)
  | [], cs => some cs
  | _ :: _, [] => none
  | w :: ws, c :: cs => if w = c then stripWord ws cs else none

/-- The nesting limit of the scanner. -/
def maxNestingDepth : Nat := 10000

mutual

/-- One JSON value at the head of the input (leading space skipped), and the
input that follows it.  `depth` counts the arrays and objects around it. -/
def readValue : Nat → Nat → List Char → Option (JSON × List Char)
  | 0, _, _ => none
  | fuel + 1, depth, cs =>
    match skipSpace cs with
    | [] => none
    | c :: rest =>
      if c = '{' then
        if depth + 1 > maxNestingDepth then none
        else
          match skipSpace rest with
          | '}' :: rest1 => some (JSON.object [], rest1)
          | _ => readMembers fuel (depth + 1) rest []
      else if c = '[' then
        if depth + 1 > maxNestingDepth then none
        else
          match skipSpace rest with
          | ']' :: rest1 => some (JSON.array [], rest1)
          | _ => readElems fuel (depth + 1) rest []
      else if c = quoteChar then
        (readString fuel rest []).map fun r => (JSON.string r.1, r.2)
      else if c = 't' then (stripWord "rue".data rest).map fun r => (JSON.bool true, r)
      else if c = 'f' then (stripWord "alse".data rest).map fun r => (JSON.bool false, r)
      else if c = 'n' then (stripWord "ull".data rest).map fun r => (JSON.null, r)
      else (readNumber (c :: rest)).map fun r => (JSON.number r.1, r.2)

/-- The elements of an array after `[` or after a comma, up to its `]`. -/
def readElems : Nat → Nat → List Char → List JSON → Option (JSON × List Char)
  | 0, _, _, _ => none
  | fuel + 1, depth, cs, acc =>
    match readValue fuel depth cs with
    | none => none
    | some (v, rest) =>
      match skipSpace rest with
      | ',' :: rest1 => readElems fuel depth rest1 (v :: acc)
      | ']' :: rest1 => some (JSON.array (v :: acc).reverse, rest1)
      | _ => none

/-- The members of an object after `{` or after a comma, up to its `}`. -/
def readMembers : Nat → Nat → List Char → List (String × JSON) → Option (JSON × List Char)
  | 0, _, _, _ => none
  | fuel + 1, depth, cs, acc =>
    match skipSpace cs with
    | q :: rest =>
      if q = quoteChar then
        match readString fuel rest [] with
        | none => none
        | some (key, rest1) =>
          match skipSpace rest1 with
          | ':' :: rest2 =>
            match readValue fuel depth rest2 with
            | none => none
            | some (v, rest3) =>
              match skipSpace rest3 with
              | ',' :: rest4 => readMembers fuel depth rest4 ((key, v) :: acc)
              | '}' :: rest4 => some (JSON.object ((key, v) :: acc).reverse, rest4)
              | _ => none
          | _ => none
      else none
    | [] => none

end

/-- The first JSON value of a body: what `Decoder.readValue` hands to the
unmarshaller.  Input after the value is left unread; `none` stands for a body
that holds no complete JSON value.  The first argument of the readers bounds
the depth of their recursion; every reader consumes a character before it
calls itself or another one, so twice the length of the body is never
reached. -/
def firstValue (body : String) : Option JSON :=
  (readValue (2 * body.length + 2) 0 body.data).map Prod.fst

/-- The JSON kind named in an `UnmarshalTypeError`. -/
def JSON.kind : JSON → String
  | .null => "null"
  | .bool _ => "bool"
  | .number _ => "number"
  | .string _ => "string"
  | .array _ => "array"
  | .object _ => "object"

/-- The struct field a JSON key selects: the key equals the field's JSON name
up to the case of its ASCII letters. -/
def foldName (key : String) : List Char := key.data.map Char.toLower

/-- The first of two errors: `saveError` keeps the earliest one. -/
def saveError (saved : Option DecodeError) (e : DecodeError) : Option DecodeError :=
  match saved with
  | some s => some s
  | none => some e

/-- Stores one member of the body's object into the item.  A string is stored
into the field it names, `null` leaves the field as it is, any other value is
an `UnmarshalTypeError` for that field, after which decoding goes on with the
next member.  A key that names no field is skipped. -/
def storeMember (st : Item × Option DecodeError) (m : String × JSON) : Item × Option DecodeError :=
  let item := st.1
  let store (fieldName : String) (set : String → Item) : Item × Option DecodeError :=
    match m.2 with
    | .string s => (set s, st.2)
    | .null => st
    | v => (item, saveError st.2 (.unmarshalType v.kind fieldName))
  if foldName m.1 = "id".data then store "id" (fun s => { item with ID := s })
  else if foldName m.1 = "name".data then store "name" (fun s => { item with Name := s })
  else if foldName m.1 = "email".data then store "email" (fun s => { item with Email := s })
  else st

/-- Stores a JSON value into an item (`unmarshal` with a `*Item` target):
an object is stored member by member, `null` changes nothing, and any other
value is an `UnmarshalTypeError` that leaves the item untouched. -/
def unmarshal (v : JSON) (item : Item) : Item × Option DecodeError :=
  match v with
  | .object members => members.foldl storeMember (item, none)
  | .null => (item, none)
  | v => (item, some (.unmarshalType v.kind ""))

/-- The call `json.NewDecoder(r.Body).Decode(&item)` on a fresh `var item Item`:
the item as the decoder leaves it, and the error it returns. -/
def Decode (body : String) : Item × Option DecodeError :=
  match firstValue body with
  | none => (Item.zero, some .malformed)
  | some v => unmarshal v Item.zero

/-! ## The DynamoDB client `svc` -/

/-- The union `types.AttributeValue` (its list and map members, which hold
further attribute values, are left out). -/
inductive AttributeValue where
  | S (Value : String)
  | N (Value : String)
  | B (Value : List UInt8)
  | BOOL (Value : Bool)
  | NULL (Value : Bool)
  | SS (Value : List String)
  | NS (Value : List String)
  | BS (Value : List (List UInt8))
deriving DecidableEq, Repr

/-- A Go `map[string]types.AttributeValue`, written in the order of its literal. -/
abbrev AttrMap := List (String × AttributeValue)

/-- The map index `m[key]`; `none` is the nil interface of a missing key. -/
def AttrMap.get : AttrMap → String → Option AttributeValue
  | [], _ => none
  | (k, v) :: m, key => if k = key then some v else AttrMap.get m key

/-- The map without a binding for `key`. -/
def AttrMap.erase : AttrMap → String → AttrMap
  | [], _ => []
  | (k, v) :: m, key => if k = key then AttrMap.erase m key else (k, v) :: AttrMap.erase m key

/-- The map with `key` bound to `v` and every other key as before. -/
def AttrMap.set (m : AttrMap) (key : String) (v : AttributeValue) : AttrMap :=
  (key, v) :: AttrMap.erase m key

/-- The items of the table `tableName`.  The primary key of an item is its
attribute `ID`. -/
abbrev Table := List AttrMap

/-- The item stored under a key, if there is one. -/
def Table.find : Table → AttributeValue → Option AttrMap
  | [], _ => none
  | item :: t, key => if AttrMap.get item "ID" = some key then some item else Table.find t key

/-- The table without the item stored under a key. -/
def Table.remove : Table → AttributeValue → Table
  | [], _ => []
  | item :: t, key =>
    if AttrMap.get item "ID" = some key then Table.remove t key else item :: Table.remove t key

/-- The table with `item` as the one item stored under its key. -/
def Table.store (t : Table) (key : AttributeValue) (item : AttrMap) : Table :=
  item :: Table.remove t key

/-- An error returned by a call of the client.  `errors.As` tells
`ResourceNotFoundException` from the rest; `%v` prints the text. -/
inductive SvcError where
  | ResourceNotFoundException (text : String)
  | ResourceInUseException (text : String)
  | ValidationException (text : String)
  | other (text : String)
deriving DecidableEq, Repr

/-- The text of `err.Error()`. -/
def SvcError.Error : SvcError → String
  | .ResourceNotFoundException t => t
  | .ResourceInUseException t => t
  | .ValidationException t => t
  | .other t => t

structure PutItemInput where
  TableName : String
  Item : AttrMap
deriving DecidableEq, Repr

structure GetItemInput where
  TableName : String
  Key : AttrMap
deriving DecidableEq, Repr

structure UpdateItemInput where
  TableName : String
  Key : AttrMap
  UpdateExpression : String
  ExpressionAttributeValues : AttrMap
  ReturnValues : String
deriving DecidableEq, Repr

structure DeleteItemInput where
  TableName : String
  Key : AttrMap
deriving DecidableEq, Repr

/-- The call `svc.PutItem`: when the service accepts the request (`fault = none`) the
item replaces whatever was stored under its key.  What the service refuses, an
empty string as key among it, is part of `fault`. -/
def PutItem (db : Table) (input : PutItemInput) (fault : Option SvcError) :
    Option SvcError × Table :=
  match fault with
  | some err => (some err, db)
  | none =>
    match AttrMap.get input.Item "ID" with
    | none => (some (.ValidationException "Missing the key ID in the item"), db)
    | some key => (none, Table.store db key input.Item)

/-- The call `svc.GetItem`: the error, or `result.Item`, which is nil (`none`) when no
item is stored under the key. -/
def GetItem (db : Table) (input : GetItemInput) (fault : Option SvcError) :
    Except SvcError (Option AttrMap) :=
  match fault with
  | some err => .error err
  | none =>
    match AttrMap.get input.Key "ID" with
    | none => .error (.ValidationException "The provided key element does not match the schema")
    | some key => .ok (Table.find db key)

/-- The words of an update expression: runs of characters between blanks,
with `=` and `,` as words of their own.  `cur` is the word being read, last
character first. -/
def exprWords : List Char → List Char → List String
  | [], cur => if cur = [] then [] else [String.mk cur.reverse]
  | c :: cs, cur =>
    let done : List String := if cur = [] then [] else [String.mk cur.reverse]
    if isSpace c then done ++ exprWords cs []
    else if c = '=' || c = ',' then done ++ String.mk [c] :: exprWords cs []
    else exprWords cs (c :: cur)

/-- The actions `path = :value` of a SET clause, separated by commas. -/
def setActions : List String → Option (List (String × String))
  | [] => none
  | [_] => none
  | [_, _] => none
  | path :: eq :: value :: rest =>
    if eq = "=" ∧ path ≠ "=" ∧ path ≠ "," ∧ value.data.head? = some ':' then
      match rest with
      | [] => some [(path, value)]
      | sep :: more =>
        if sep = "," then (setActions more).map fun acts => (path, value) :: acts
        else none
    else none

/-- The actions of an update expression of the form
`SET path = :value, path = :value, ...`. -/
def parseUpdate (expr : String) : Option (List (String × String)) :=
  match exprWords expr.data [] with
  | [] => none
  | kw :: rest => if kw.data.map Char.toLower = "set".data then setActions rest else none

/-- Runs SET actions on an item: each binds an attribute to the value its
placeholder stands for.  The key attribute cannot be assigned, and every
placeholder has to be defined. -/
def applySet (values : AttrMap) : List (String × String) → AttrMap → Option AttrMap
  | [], item => some item
  | (path, value) :: acts, item =>
    if path = "ID" then none
    else
      match AttrMap.get values value with
      | none => none
      | some v => applySet values acts (AttrMap.set item path v)

/-- The call `svc.UpdateItem`: when the service accepts the request the SET actions run
on the item stored under the key, or on a new item holding only the key when
none is stored, and the result is stored under the key.  What the service
refuses is part of `fault`; `reservedWordVerdict` below gives the answer of
DynamoDB to an expression that names a reserved word. -/
def UpdateItem (db : Table) (input : UpdateItemInput) (fault : Option SvcError) :
    Option SvcError × Table :=
  match fault with
  | some err => (some err, db)
  | none =>
    match AttrMap.get input.Key "ID" with
    | none => (some (.ValidationException "The provided key element does not match the schema"), db)
    | some key =>
      let old : AttrMap := (Table.find db key).getD [("ID", key)]
      match (parseUpdate input.UpdateExpression).bind
          fun acts => applySet input.ExpressionAttributeValues acts old with
      | none => (some (.ValidationException "Invalid UpdateExpression"), db)
      | some new => (none, Table.store db key new)

/-- The call `svc.DeleteItem`: when the service accepts the request no item is stored
under the key afterwards; deleting a key that holds nothing is no error. -/
def DeleteItem (db : Table) (input : DeleteItemInput) (fault : Option SvcError) :
    Option SvcError × Table :=
  match fault with
  | some err => (some err, db)
  | none =>
    match AttrMap.get input.Key "ID" with
    | none => (some (.ValidationException "The provided key element does not match the schema"), db)
    | some key => (none, Table.remove db key)

/-! ## The handlers of `main.go` -/

/-- What a handler writes as the body of its response. -/
inductive Payload where
  /-- The line written by `http.Error(w, text, code)`. -/
  | text (text : String)
  /-- The output of `json.NewEncoder(w).Encode(s)` for a string `s`. -/
  | encodedString (s : String)
  /-- The output of `json.NewEncoder(w).Encode(item)` for an `Item`. -/
  | encodedItem (item : Item)
deriving DecidableEq, Repr

structure Response where
  status : Nat
  body : Payload
deriving DecidableEq, Repr

/-- How a handler ends: with a response, or in the run-time panic of a failed
type assertion, before anything was written. -/
inductive Reply where
  | answer (r : Response)
  | panic
deriving DecidableEq, Repr

/-- A call a function of `main.go` made on `svc`, with its input. -/
inductive Call where
  | PutItem (input : PutItemInput)
  | GetItem (input : GetItemInput)
  | UpdateItem (input : UpdateItemInput)
  | DeleteItem (input : DeleteItemInput)
deriving DecidableEq, Repr

/-- One run of a handler: its reply, the table it leaves, and the calls it
made on `svc`, in order. -/
structure Run where
  reply : Reply
  table : Table
  calls : List Call
deriving DecidableEq, Repr

/-- The status codes of `net/http` the handlers use. -/
abbrev StatusOK : Nat := 200
abbrev StatusCreated : Nat := 201
abbrev StatusNotFound : Nat := 404
abbrev StatusInternalServerError : Nat := 500

/-- The type assertion `v.(*types.AttributeValueMemberS).Value`: `none` is the
panic on a nil interface or on another member of the union. -/
def assertS : Option AttributeValue → Option String
  | some (.S value) => some value
  | _ => none

/-- Handler `createItem` of `main.go` (`POST /item`).  `tableName` is the global
of that name, `db` the table before the request, `body` the request body and
`svcErr` the error the service answers the `PutItem` call with. -/
def createItem (tableName : String) (db : Table) (body : String)
    (svcErr : Option SvcError) : Run :=
  let item := (Decode body).1
  let input : PutItemInput :=
    { TableName := tableName
      Item := [("ID", .S item.ID), ("Name", .S item.Name), ("Email", .S item.Email)] }
  match PutItem db input svcErr with
  | (some err, db1) =>
    { reply := .answer ⟨StatusInternalServerError, .text ("Failed to add item: " ++ err.Error)⟩
      table := db1
      calls := [.PutItem input] }
  | (none, db1) =>
    { reply := .answer ⟨StatusCreated, .encodedString "Successfully added item"⟩
      table := db1
      calls := [.PutItem input] }

/-- Handler `getItem` of `main.go` (`GET /item/{id}`); `id` is the path
variable. -/
def getItem (tableName : String) (db : Table) (id : String)
    (svcErr : Option SvcError) : Run :=
  let input : GetItemInput := { TableName := tableName, Key := [("ID", .S id)] }
  match GetItem db input svcErr with
  | .error err =>
    { reply := .answer ⟨StatusInternalServerError, .text ("Failed to get item: " ++ err.Error)⟩
      table := db
      calls := [.GetItem input] }
  | .ok none =>
    { reply := .answer ⟨StatusNotFound, .text "Could not find item"⟩
      table := db
      calls := [.GetItem input] }
  | .ok (some resultItem) =>
    match assertS (AttrMap.get resultItem "ID"), assertS (AttrMap.get resultItem "Name"),
        assertS (AttrMap.get resultItem "Email") with
    | some i, some n, some e =>
      { reply := .answer ⟨StatusOK, .encodedItem { ID := i, Name := n, Email := e }⟩
        table := db
        calls := [.GetItem input] }
    | _, _, _ => { reply := .panic, table := db, calls := [.GetItem input] }

/-- Handler `updateItem` of `main.go` (`PUT /item/{id}`). -/
def updateItem (tableName : String) (db : Table) (id : String) (body : String)
    (svcErr : Option SvcError) : Run :=
  let item := (Decode body).1
  let input : UpdateItemInput :=
    { TableName := tableName
      Key := [("ID", .S id)]
      UpdateExpression := "set Name = :n, Email = :e"
      ExpressionAttributeValues := [(":n", .S item.Name), (":e", .S item.Email)]
      ReturnValues := "UPDATED_NEW" }
  match UpdateItem db input svcErr with
  | (some err, db1) =>
    { reply := .answer ⟨StatusInternalServerError, .text ("Failed to update item: " ++ err.Error)⟩
      table := db1
      calls := [.UpdateItem input] }
  | (none, db1) =>
    { reply := .answer ⟨StatusOK, .encodedString "Successfully updated item"⟩
      table := db1
      calls := [.UpdateItem input] }

/-- Handler `deleteItem` of `main.go` (`DELETE /item/{id}`). -/
def deleteItem (tableName : String) (db : Table) (id : String)
    (svcErr : Option SvcError) : Run :=
  let input : DeleteItemInput := { TableName := tableName, Key := [("ID", .S id)] }
  match DeleteItem db input svcErr with
  | (some err, db1) =>
    { reply := .answer ⟨StatusInternalServerError, .text ("Failed to delete item: " ++ err.Error)⟩
      table := db1
      calls := [.DeleteItem input] }
  | (none, db1) =>
    { reply := .answer ⟨StatusOK, .encodedString "Successfully deleted item"⟩
      table := db1
      calls := [.DeleteItem input] }

/-! ## Table provisioning -/

/-- The schema fields of `dynamodb.CreateTableInput`. -/
structure TableSchema where
  /-- Pairs of `AttributeName` and `AttributeType`. -/
  AttributeDefinitions : List (String × String)
  /-- Pairs of `AttributeName` and `KeyType`. -/
  KeySchema : List (String × String)
  /-- The numbers `ReadCapacityUnits` and `WriteCapacityUnits`. -/
  ProvisionedThroughput : Nat × Nat
deriving DecidableEq, Repr

/-- The tables the service holds, by name, each with its schema. -/
abbrev Catalog := List (String × TableSchema)

/-- The schema of a table, when a table of that name exists. -/
def Catalog.describe : Catalog → String → Option TableSchema
  | [], _ => none
  | (n, s) :: c, name => if n = name then some s else Catalog.describe c name

/-- A call `createTableIfNotExists` made on `svc`. -/
inductive AdminCall where
  | DescribeTable (tableName : String)
  | CreateTable (tableName : String) (schema : TableSchema)
deriving DecidableEq, Repr

/-- The call `svc.DescribeTable`: `fault` is the text of a failure other than a
missing table (`none` when the request is answered); a missing table is the
error `ResourceNotFoundException`. -/
def DescribeTable (cat : Catalog) (tableName : String) (fault : Option String) :
    Except SvcError TableSchema :=
  match fault with
  | some text => .error (.other text)
  | none =>
    match Catalog.describe cat tableName with
    | none => .error (.ResourceNotFoundException ("Requested resource not found: Table: " ++ tableName ++ " not found"))
    | some schema => .ok schema

/-- The call `svc.CreateTable`: a table that exists is not created again. -/
def CreateTable (cat : Catalog) (tableName : String) (schema : TableSchema)
    (fault : Option String) : Option SvcError × Catalog :=
  match fault with
  | some text => (some (.other text), cat)
  | none =>
    match Catalog.describe cat tableName with
    | some _ => (some (.ResourceInUseException ("Table already exists: " ++ tableName)), cat)
    | none => (none, cat ++ [(tableName, schema)])

/-- The schema `createTableIfNotExists` asks for: the string attribute `ID` as
partition key, five read and five write capacity units. -/
def itemTableSchema : TableSchema :=
  { AttributeDefinitions := [("ID", "S")]
    KeySchema := [("ID", "HASH")]
    ProvisionedThroughput := (5, 5) }

/-- One run of `createTableIfNotExists`: the returned error (`none` for nil),
the catalog it leaves, and the calls it made. -/
structure Provision where
  err : Option String
  catalog : Catalog
  calls : List AdminCall
deriving DecidableEq, Repr

/-- The test `errors.As(err, &nfe)` for `nfe *types.ResourceNotFoundException`. -/
def isResourceNotFound : SvcError → Bool
  | .ResourceNotFoundException _ => true
  | _ => false

/-- Function `createTableIfNotExists` of `main.go`.  `describeFault` and
`createFault` are the failures of its two calls. -/
def createTableIfNotExists (tableName : String) (cat : Catalog)
    (describeFault createFault : Option String) : Provision :=
  match DescribeTable cat tableName describeFault with
  | .error err =>
    if isResourceNotFound err then
      match CreateTable cat tableName itemTableSchema createFault with
      | (some err1, cat1) =>
        { err := some ("failed to create table: " ++ err1.Error)
          catalog := cat1
          calls := [.DescribeTable tableName, .CreateTable tableName itemTableSchema] }
      | (none, cat1) =>
        { err := none
          catalog := cat1
          calls := [.DescribeTable tableName, .CreateTable tableName itemTableSchema] }
    else
      { err := some ("failed to describe table: " ++ err.Error)
        catalog := cat
        calls := [.DescribeTable tableName] }
  | .ok _ => { err := none, catalog := cat, calls := [.DescribeTable tableName] }

/-! ## Sequences of requests -/

/-- A request that may change the table, with the error the service answers
its call with. -/
inductive Request where
  | create (body : String) (svcErr : Option SvcError)
  | update (id : String) (body : String) (svcErr : Option SvcError)
  | delete (id : String) (svcErr : Option SvcError)

/-- The table after one request. -/
def serve (tableName : String) (db : Table) : Request → Table
  | .create body svcErr => (createItem tableName db body svcErr).table
  | .update id body svcErr => (updateItem tableName db id body svcErr).table
  | .delete id svcErr => (deleteItem tableName db id svcErr).table

/-- The table after a sequence of requests, starting from the empty table. -/
def serveAll (tableName : String) (reqs : List Request) : Table :=
  reqs.foldl (serve tableName) []

/-- An item as this program writes it: `ID`, `Name` and `Email` are all
present and hold strings. -/
def IsItem (item : AttrMap) : Prop :=
  (assertS (AttrMap.get item "ID")).isSome ∧ (assertS (AttrMap.get item "Name")).isSome ∧
    (assertS (AttrMap.get item "Email")).isSome

instance (item : AttrMap) : Decidable (IsItem item) := by
  unfold IsItem; infer_instance

/-- The table holds items only. -/
def HoldsItems (db : Table) : Prop := ∀ item ∈ db, IsItem item

/-- The item an accepted `UpdateItem` call of `updateItem` leaves under the
key: the item stored before, or the bare key, with `Name` and `Email` set. -/
def updatedItem (db : Table) (id name email : String) : AttrMap :=
  AttrMap.set (AttrMap.set ((Table.find db (.S id)).getD [("ID", .S id)]) "Name" (.S name))
    "Email" (.S email)


/-! ## What DynamoDB answers to the request of `updateItem` -/

/-- The reserved words of the expression language of DynamoDB, in capitals, as
its developer guide lists them. -/
def reservedWords : List String :=
  [
    "ABORT", "ABSOLUTE", "ACTION", "ADD", "AFTER", "AGENT", "AGGREGATE", "ALL", "ALLOCATE",
    "ALTER", "ANALYZE", "AND", "ANY", "ARCHIVE", "ARE", "ARRAY", "AS", "ASC", "ASCII",
    "ASENSITIVE", "ASSERTION", "ASYMMETRIC", "AT", "ATOMIC", "ATTACH", "ATTRIBUTE", "AUTH",
    "AUTHORIZATION", "AUTHORIZE", "AUTO", "AVG", "BACK", "BACKUP", "BASE", "BATCH", "BEFORE",
    "BEGIN", "BETWEEN", "BIGINT", "BINARY", "BIT", "BLOB", "BLOCK", "BOOLEAN", "BOTH",
    "BREADTH", "BUCKET", "BULK", "BY", "BYTE", "CALL", "CALLED", "CALLING", "CAPACITY",
    "CASCADE", "CASCADED", "CASE", "CAST", "CATALOG", "CHAR", "CHARACTER", "CHECK", "CLASS",
    "CLOB", "CLOSE", "CLUSTER", "CLUSTERED", "CLUSTERING", "CLUSTERS", "COALESCE", "COLLATE",
    "COLLATION", "COLLECTION", "COLUMN", "COLUMNS", "COMBINE", "COMMENT", "COMMIT", "COMPACT",
    "COMPILE", "COMPRESS", "CONDITION", "CONFLICT", "CONNECT", "CONNECTION", "CONSISTENCY",
    "CONSISTENT", "CONSTRAINT", "CONSTRAINTS", "CONSTRUCTOR", "CONSUMED", "CONTINUE", "CONVERT",
    "COPY", "CORRESPONDING", "COUNT", "COUNTER", "CREATE", "CROSS", "CUBE", "CURRENT", "CURSOR",
    "CYCLE", "DATA", "DATABASE", "DATE", "DATETIME", "DAY", "DEALLOCATE", "DEC", "DECIMAL",
    "DECLARE", "DEFAULT", "DEFERRABLE", "DEFERRED", "DEFINE", "DEFINED", "DEFINITION", "DELETE",
    "DELIMITED", "DEPTH", "DEREF", "DESC", "DESCRIBE", "DESCRIPTOR", "DETACH", "DETERMINISTIC",
    "DIAGNOSTICS", "DIRECTORIES", "DISABLE", "DISCONNECT", "DISTINCT", "DISTRIBUTE", "DO",
    "DOMAIN", "DOUBLE", "DROP", "DUMP", "DURATION", "DYNAMIC", "EACH", "ELEMENT", "ELSE",
    "ELSEIF", "EMPTY", "ENABLE", "END", "EQUAL", "EQUALS", "ERROR", "ESCAPE", "ESCAPED", "EVAL",
    "EVALUATE", "EXCEEDED", "EXCEPT", "EXCEPTION", "EXCEPTIONS", "EXCLUSIVE", "EXEC", "EXECUTE",
    "EXISTS", "EXIT", "EXPLAIN", "EXPLODE", "EXPORT", "EXPRESSION", "EXTENDED", "EXTERNAL",
    "EXTRACT", "FAIL", "FALSE", "FAMILY", "FETCH", "FIELDS", "FILE", "FILTER", "FILTERING",
    "FINAL", "FINISH", "FIRST", "FIXED", "FLATTERN", "FLOAT", "FOR", "FORCE", "FOREIGN",
    "FORMAT", "FORWARD", "FOUND", "FREE", "FROM", "FULL", "FUNCTION", "FUNCTIONS", "GENERAL",
    "GENERATE", "GET", "GLOB", "GLOBAL", "GO", "GOTO", "GRANT", "GREATER", "GROUP", "GROUPING",
    "HANDLER", "HASH", "HAVE", "HAVING", "HEAP", "HIDDEN", "HOLD", "HOUR", "IDENTIFIED",
    "IDENTITY", "IF", "IGNORE", "IMMEDIATE", "IMPORT", "IN", "INCLUDING", "INCLUSIVE",
    "INCREMENT", "INCREMENTAL", "INDEX", "INDEXED", "INDEXES", "INDICATOR", "INFINITE",
    "INITIALLY", "INLINE", "INNER", "INNTER", "INOUT", "INPUT", "INSENSITIVE", "INSERT",
    "INSTEAD", "INT", "INTEGER", "INTERSECT", "INTERVAL", "INTO", "INVALIDATE", "IS",
    "ISOLATION", "ITEM", "ITEMS", "ITERATE", "JOIN", "KEY", "KEYS", "LAG", "LANGUAGE", "LARGE",
    "LAST", "LATER", "LATERAL", "LEAD", "LEADING", "LEAVE", "LEFT", "LENGTH", "LESS", "LEVEL",
    "LIKE", "LIMIT", "LIMITED", "LINES", "LIST", "LOAD", "LOCAL", "LOCALTIME", "LOCALTIMESTAMP",
    "LOCATION", "LOCATOR", "LOCK", "LOCKS", "LOG", "LOGED", "LONG", "LOOP", "LOWER", "MAP",
    "MATCH", "MATERIALIZED", "MAX", "MAXLEN", "MEMBER", "MERGE", "METHOD", "METRICS", "MIN",
    "MINUS", "MINUTE", "MISSING", "MOD", "MODE", "MODIFIES", "MODIFY", "MODULE", "MONTH",
    "MULTI", "MULTISET", "NAME", "NAMES", "NATIONAL", "NATURAL", "NCHAR", "NCLOB", "NEW",
    "NEXT", "NO", "NONE", "NOT", "NULL", "NULLIF", "NUMBER", "NUMERIC", "OBJECT", "OF",
    "OFFLINE", "OFFSET", "OLD", "ON", "ONLINE", "ONLY", "OPAQUE", "OPEN", "OPERATOR", "OPTION",
    "OR", "ORDER", "ORDINALITY", "OTHER", "OTHERS", "OUT", "OUTER", "OUTPUT", "OVER",
    "OVERLAPS", "OVERRIDE", "OWNER", "PAD", "PARALLEL", "PARAMETER", "PARAMETERS", "PARTIAL",
    "PARTITION", "PARTITIONED", "PARTITIONS", "PATH", "PERCENT", "PERCENTILE", "PERMISSION",
    "PERMISSIONS", "PIPE", "PIPELINED", "PLAN", "POOL", "POSITION", "PRECISION", "PREPARE",
    "PRESERVE", "PRIMARY", "PRIOR", "PRIVATE", "PRIVILEGES", "PROCEDURE", "PROCESSED",
    "PROJECT", "PROJECTION", "PROPERTY", "PROVISIONING", "PUBLIC", "PUT", "QUERY", "QUIT",
    "QUORUM", "RAISE", "RANDOM", "RANGE", "RANK", "RAW", "READ", "READS", "REAL", "REBUILD",
    "RECORD", "RECURSIVE", "REDUCE", "REF", "REFERENCE", "REFERENCES", "REFERENCING", "REGEXP",
    "REGION", "REINDEX", "RELATIVE", "RELEASE", "REMAINDER", "RENAME", "REPEAT", "REPLACE",
    "REQUEST", "RESET", "RESIGNAL", "RESOURCE", "RESPONSE", "RESTORE", "RESTRICT", "RESULT",
    "RETURN", "RETURNING", "RETURNS", "REVERSE", "REVOKE", "RIGHT", "ROLE", "ROLES", "ROLLBACK",
    "ROLLUP", "ROUTINE", "ROW", "ROWS", "RULE", "RULES", "SAMPLE", "SATISFIES", "SAVE",
    "SAVEPOINT", "SCAN", "SCHEMA", "SCOPE", "SCROLL", "SEARCH", "SECOND", "SECTION", "SEGMENT",
    "SEGMENTS", "SELECT", "SELF", "SEMI", "SENSITIVE", "SEPARATE", "SEQUENCE", "SERIALIZABLE",
    "SESSION", "SET", "SETS", "SHARD", "SHARE", "SHARED", "SHORT", "SHOW", "SIGNAL", "SIMILAR",
    "SIZE", "SKEWED", "SMALLINT", "SNAPSHOT", "SOME", "SOURCE", "SPACE", "SPACES", "SPARSE",
    "SPECIFIC", "SPECIFICTYPE", "SPLIT", "SQL", "SQLCODE", "SQLERROR", "SQLEXCEPTION",
    "SQLSTATE", "SQLWARNING", "START", "STATE", "STATIC", "STATISTICS", "STORE", "STORED",
    "STREAM", "STRING", "STRUCT", "STYLE", "SUB", "SUBMULTISET", "SUBPARTITION", "SUBSTRING",
    "SUBTYPE", "SUM", "SUPER", "SYMMETRIC", "SYNONYM", "SYSTEM", "TABLE", "TABLESAMPLE", "TEMP",
    "TEMPORARY", "TERMINATED", "TEXT", "THAN", "THEN", "THROUGHPUT", "TIME", "TIMESTAMP",
    "TIMEZONE", "TINYINT", "TO", "TOKEN", "TOTAL", "TOUCH", "TRAILING", "TRANSACTION",
    "TRANSFORM", "TRANSLATE", "TRANSLATION", "TREAT", "TRIGGER", "TRIM", "TRUE", "TRUNCATE",
    "TTL", "TUPLE", "TYPE", "UNDER", "UNDO", "UNION", "UNIQUE", "UNIT", "UNKNOWN", "UNLOGGED",
    "UNNEST", "UNPROCESSED", "UNSIGNED", "UNTIL", "UPDATE", "UPPER", "URL", "USAGE", "USE",
    "USER", "USERS", "USING", "UUID", "VACUUM", "VALUE", "VALUED", "VALUES", "VARCHAR",
    "VARIABLE", "VARIANCE", "VARINT", "VARYING", "VIEW", "VIEWS", "VIRTUAL", "VOID", "WAIT",
    "WHEN", "WHENEVER", "WHERE", "WHILE", "WINDOW", "WITH", "WITHIN", "WITHOUT", "WORK",
    "WRAPPED", "WRITE", "YEAR", "ZONE"
  ]

/-- Whether an attribute name is a reserved word, whatever the case of its
letters. -/
def isReservedWord (name : String) : Bool :=
  reservedWords.contains (String.mk (name.data.map Char.toUpper))

/-- The answer of DynamoDB to the update expression of a request that, like the
one of `updateItem`, carries no `ExpressionAttributeNames`: an attribute named
by a reserved word is refused with a `ValidationException`.  The result is
`none` when the expression names no reserved word. -/
def reservedWordVerdict (input : UpdateItemInput) : Option SvcError :=
  match parseUpdate input.UpdateExpression with
  | none => none
  | some acts =>
    match acts.find? fun a => isReservedWord a.1 with
    | some a =>
      some (.ValidationException
        ("Invalid UpdateExpression: Attribute name is a reserved keyword; reserved keyword: "
          ++ a.1))
    | none => none

/-! ## What a JSON object leaves in the fields of an item -/

/-- One member of an object, seen from one field: a member that names the
field and holds a string replaces what the field held; any other member leaves
it. -/
def stepField (field : String) (acc : String) (m : String × JSON) : String :=
  if foldName m.1 = field.data then
    match m.2 with
    | .string s => s
    | _ => acc
  else acc

/-- The string the members of an object leave in a field: the string of the
last member that names the field and holds a string, and the empty string
when there is none. -/
def memberString (field : String) (members : List (String × JSON)) : String :=
  members.foldl (stepField field) ""

/-- A member that cannot be stored: it names a field of `Item` and holds
neither a string nor `null`. -/
def illTyped (m : String × JSON) : Bool :=
  (decide (foldName m.1 = "id".data) || decide (foldName m.1 = "name".data)
      || decide (foldName m.1 = "email".data)) &&
    match m.2 with
    | .string _ => false
    | .null => false
    | _ => true

/-! ## Lemmas on attribute maps and tables -/

theorem AttrMap.get_erase_ne (m : AttrMap) (k key : String) (h : key ≠ k) :
    AttrMap.get (AttrMap.erase m k) key = AttrMap.get m key := by
  induction m with
  | nil => rfl
  | cons kv m ih =>
    obtain ⟨k1, v1⟩ := kv
    by_cases hk : k1 = k
    · subst hk
      have hne : ¬ k1 = key := fun e => h e.symm
      simp [AttrMap.erase, AttrMap.get, hne, ih]
    · by_cases hkey : k1 = key
      · subst hkey
        simp [AttrMap.erase, AttrMap.get, hk]
      · simp [AttrMap.erase, AttrMap.get, hk, hkey, ih]

theorem AttrMap.get_set_self (m : AttrMap) (k : String) (v : AttributeValue) :
    AttrMap.get (AttrMap.set m k v) k = some v := by
  simp [AttrMap.set, AttrMap.get]

theorem AttrMap.get_set_other (m : AttrMap) (k key : String) (v : AttributeValue)
    (h : key ≠ k) : AttrMap.get (AttrMap.set m k v) key = AttrMap.get m key := by
  have hne : ¬ k = key := fun e => h e.symm
  simp [AttrMap.set, AttrMap.get, hne, AttrMap.get_erase_ne m k key h]

theorem Table.find_key (t : Table) (key : AttributeValue) (item : AttrMap)
    (h : Table.find t key = some item) : AttrMap.get item "ID" = some key := by
  induction t with
  | nil => simp [Table.find] at h
  | cons it t ih =>
    by_cases hk : AttrMap.get it "ID" = some key
    · simp [Table.find, hk] at h
      rw [← h]; exact hk
    · simp [Table.find, hk] at h
      exact ih h

theorem Table.find_remove_self (t : Table) (key : AttributeValue) :
    Table.find (Table.remove t key) key = none := by
  induction t with
  | nil => rfl
  | cons it t ih =>
    by_cases hk : AttrMap.get it "ID" = some key
    · simp [Table.remove, hk, ih]
    · simp [Table.remove, Table.find, hk, ih]

theorem Table.find_remove_other (t : Table) (key other : AttributeValue) (h : other ≠ key) :
    Table.find (Table.remove t key) other = Table.find t other := by
  induction t with
  | nil => rfl
  | cons it t ih =>
    by_cases hk : AttrMap.get it "ID" = some key
    · have ho : ¬ AttrMap.get it "ID" = some other := by
        rw [hk]; intro e; exact h (Option.some.inj e).symm
      rw [Table.remove, if_pos hk, Table.find, if_neg ho, ih]
    · by_cases ho : AttrMap.get it "ID" = some other
      · rw [Table.remove, if_neg hk, Table.find, if_pos ho, Table.find, if_pos ho]
      · rw [Table.remove, if_neg hk, Table.find, if_neg ho, Table.find, if_neg ho, ih]

theorem Table.remove_of_find_none (t : Table) (key : AttributeValue)
    (h : Table.find t key = none) : Table.remove t key = t := by
  induction t with
  | nil => rfl
  | cons it t ih =>
    by_cases hk : AttrMap.get it "ID" = some key
    · simp [Table.find, hk] at h
    · simp [Table.find, hk] at h
      simp [Table.remove, hk, ih h]

theorem Table.remove_remove (t : Table) (key : AttributeValue) :
    Table.remove (Table.remove t key) key = Table.remove t key :=
  Table.remove_of_find_none _ _ (Table.find_remove_self t key)

theorem Table.find_store_self (t : Table) (key : AttributeValue) (item : AttrMap)
    (h : AttrMap.get item "ID" = some key) :
    Table.find (Table.store t key item) key = some item := by
  simp [Table.store, Table.find, h]

theorem Table.find_store_other (t : Table) (key other : AttributeValue) (item : AttrMap)
    (h : AttrMap.get item "ID" = some key) (hne : other ≠ key) :
    Table.find (Table.store t key item) other = Table.find t other := by
  have ho : ¬ key = other := fun e => hne e.symm
  simp [Table.store, Table.find, h, ho, Table.find_remove_other t key other hne]

/-! ## What each call does to the table -/

theorem parseUpdate_set_name_email :
    parseUpdate "set Name = :n, Email = :e" = some [("Name", ":n"), ("Email", ":e")] := by
  decide

theorem updatedItem_get_ID (db : Table) (id name email : String) :
    AttrMap.get (updatedItem db id name email) "ID" = some (.S id) := by
  unfold updatedItem
  rw [AttrMap.get_set_other _ _ _ _ (by decide), AttrMap.get_set_other _ _ _ _ (by decide)]
  cases h : Table.find db (.S id) with
  | none => simp [AttrMap.get]
  | some it => simpa using Table.find_key db _ it h

theorem updatedItem_get_Name (db : Table) (id name email : String) :
    AttrMap.get (updatedItem db id name email) "Name" = some (.S name) := by
  unfold updatedItem
  rw [AttrMap.get_set_other _ _ _ _ (by decide), AttrMap.get_set_self]

theorem updatedItem_get_Email (db : Table) (id name email : String) :
    AttrMap.get (updatedItem db id name email) "Email" = some (.S email) := by
  unfold updatedItem
  rw [AttrMap.get_set_self]

theorem createItem_ok (tableName : String) (db : Table) (body : String) :
    createItem tableName db body none =
      { reply := .answer ⟨StatusCreated, .encodedString "Successfully added item"⟩
        table := Table.store db (.S (Decode body).1.ID)
          [("ID", .S (Decode body).1.ID), ("Name", .S (Decode body).1.Name),
            ("Email", .S (Decode body).1.Email)]
        calls := [.PutItem ⟨tableName, [("ID", .S (Decode body).1.ID),
          ("Name", .S (Decode body).1.Name), ("Email", .S (Decode body).1.Email)]⟩] } := by
  simp [createItem, PutItem, AttrMap.get]

theorem createItem_err (tableName : String) (db : Table) (body : String) (err : SvcError) :
    createItem tableName db body (some err) =
      { reply := .answer ⟨StatusInternalServerError, .text ("Failed to add item: " ++ err.Error)⟩
        table := db
        calls := [.PutItem ⟨tableName, [("ID", .S (Decode body).1.ID),
          ("Name", .S (Decode body).1.Name), ("Email", .S (Decode body).1.Email)]⟩] } := by
  simp [createItem, PutItem]

theorem updateItem_ok (tableName : String) (db : Table) (id body : String) :
    updateItem tableName db id body none =
      { reply := .answer ⟨StatusOK, .encodedString "Successfully updated item"⟩
        table := Table.store db (.S id)
          (updatedItem db id (Decode body).1.Name (Decode body).1.Email)
        calls := [.UpdateItem ⟨tableName, [("ID", .S id)], "set Name = :n, Email = :e",
          [(":n", .S (Decode body).1.Name), (":e", .S (Decode body).1.Email)], "UPDATED_NEW"⟩] } := by
  simp [updateItem, UpdateItem, AttrMap.get, parseUpdate_set_name_email, applySet, updatedItem]

theorem updateItem_err (tableName : String) (db : Table) (id body : String) (err : SvcError) :
    updateItem tableName db id body (some err) =
      { reply := .answer ⟨StatusInternalServerError, .text ("Failed to update item: " ++ err.Error)⟩
        table := db
        calls := [.UpdateItem ⟨tableName, [("ID", .S id)], "set Name = :n, Email = :e",
          [(":n", .S (Decode body).1.Name), (":e", .S (Decode body).1.Email)], "UPDATED_NEW"⟩] } := by
  simp [updateItem, UpdateItem]

theorem deleteItem_ok (tableName : String) (db : Table) (id : String) :
    deleteItem tableName db id none =
      { reply := .answer ⟨StatusOK, .encodedString "Successfully deleted item"⟩
        table := Table.remove db (.S id)
        calls := [.DeleteItem ⟨tableName, [("ID", .S id)]⟩] } := by
  simp [deleteItem, DeleteItem, AttrMap.get]

theorem deleteItem_err (tableName : String) (db : Table) (id : String) (err : SvcError) :
    deleteItem tableName db id (some err) =
      { reply := .answer ⟨StatusInternalServerError, .text ("Failed to delete item: " ++ err.Error)⟩
        table := db
        calls := [.DeleteItem ⟨tableName, [("ID", .S id)]⟩] } := by
  simp [deleteItem, DeleteItem]

theorem getItem_err (tableName : String) (db : Table) (id : String) (err : SvcError) :
    getItem tableName db id (some err) =
      { reply := .answer ⟨StatusInternalServerError, .text ("Failed to get item: " ++ err.Error)⟩
        table := db
        calls := [.GetItem ⟨tableName, [("ID", .S id)]⟩] } := by
  simp [getItem, GetItem]

theorem getItem_missing (tableName : String) (db : Table) (id : String)
    (h : Table.find db (.S id) = none) :
    getItem tableName db id none =
      { reply := .answer ⟨StatusNotFound, .text "Could not find item"⟩
        table := db
        calls := [.GetItem ⟨tableName, [("ID", .S id)]⟩] } := by
  simp [getItem, GetItem, AttrMap.get, h]

theorem getItem_found (tableName : String) (db : Table) (id : String) (stored : AttrMap)
    (i n e : String) (h : Table.find db (.S id) = some stored)
    (hi : AttrMap.get stored "ID" = some (.S i)) (hn : AttrMap.get stored "Name" = some (.S n))
    (he : AttrMap.get stored "Email" = some (.S e)) :
    getItem tableName db id none =
      { reply := .answer ⟨StatusOK, .encodedItem ⟨i, n, e⟩⟩
        table := db
        calls := [.GetItem ⟨tableName, [("ID", .S id)]⟩] } := by
  simp [getItem, GetItem, AttrMap.get, h, hi, hn, he, assertS]


/-! ## Decoding lemmas and the invariant of the table -/

theorem saveError_malformed (saved : Option DecodeError) (value field : String)
    (h : saveError saved (.unmarshalType value field) = some .malformed) :
    saved = some .malformed := by
  cases saved with
  | none => simp [saveError] at h
  | some e => simpa [saveError] using h

theorem storeMember_malformed (st : Item × Option DecodeError) (m : String × JSON)
    (h : (storeMember st m).2 = some .malformed) : st.2 = some .malformed := by
  unfold storeMember at h
  by_cases h1 : foldName m.1 = "id".data
  · simp only [h1, if_true] at h
    cases hv : m.2 <;> simp only [hv] at h <;>
      first
        | exact h
        | exact saveError_malformed _ _ _ h
  · by_cases h2 : foldName m.1 = "name".data
    · simp only [h1, h2, if_true, if_false] at h
      cases hv : m.2 <;> simp only [hv] at h <;>
        first
          | exact h
          | exact saveError_malformed _ _ _ h
    · by_cases h3 : foldName m.1 = "email".data
      · simp only [h1, h2, h3, if_true, if_false] at h
        cases hv : m.2 <;> simp only [hv] at h <;>
          first
            | exact h
            | exact saveError_malformed _ _ _ h
      · simp only [h1, h2, h3, if_false] at h
        exact h

theorem foldl_storeMember_malformed (members : List (String × JSON))
    (st : Item × Option DecodeError)
    (h : (members.foldl storeMember st).2 = some .malformed) : st.2 = some .malformed := by
  induction members generalizing st with
  | nil => exact h
  | cons m ms ih => exact storeMember_malformed st m (ih _ h)

theorem storeMember_fields (st : Item × Option DecodeError) (m : String × JSON) :
    (storeMember st m).1
      = ⟨stepField "id" st.1.ID m, stepField "name" st.1.Name m,
          stepField "email" st.1.Email m⟩ := by
  unfold storeMember stepField
  by_cases h1 : foldName m.1 = "id".data
  · have h2 : ¬ foldName m.1 = "name".data := by rw [h1]; decide
    have h3 : ¬ foldName m.1 = "email".data := by rw [h1]; decide
    simp only [h1, h2, h3, if_true, if_false]
    cases m.2 <;> rfl
  · by_cases h2 : foldName m.1 = "name".data
    · have h3 : ¬ foldName m.1 = "email".data := by rw [h2]; decide
      simp only [h1, h2, h3, if_true, if_false]
      cases m.2 <;> rfl
    · by_cases h3 : foldName m.1 = "email".data
      · simp only [h1, h2, h3, if_true, if_false]
        cases m.2 <;> rfl
      · simp only [h1, h2, h3, if_false]

theorem foldl_storeMember_fields (members : List (String × JSON))
    (st : Item × Option DecodeError) :
    (members.foldl storeMember st).1
      = ⟨members.foldl (stepField "id") st.1.ID, members.foldl (stepField "name") st.1.Name,
          members.foldl (stepField "email") st.1.Email⟩ := by
  induction members generalizing st with
  | nil => rfl
  | cons m ms ih => rw [List.foldl_cons, ih, storeMember_fields]; rfl

theorem saveError_ne_none (saved : Option DecodeError) (e : DecodeError) :
    saveError saved e ≠ none := by
  cases saved <;> simp [saveError]

theorem storeMember_error (st : Item × Option DecodeError) (m : String × JSON) :
    (storeMember st m).2 = none ↔ st.2 = none ∧ illTyped m = false := by
  unfold storeMember illTyped
  by_cases h1 : foldName m.1 = "id".data
  · simp only [h1, if_true, decide_True, Bool.true_or, Bool.true_and]
    cases hv : m.2 <;> simp [saveError_ne_none]
  · by_cases h2 : foldName m.1 = "name".data
    · simp only [h1, h2, if_true, if_false, decide_True, decide_False, Bool.true_or,
        Bool.or_true, Bool.false_or, Bool.true_and]
      cases hv : m.2 <;> simp [saveError_ne_none]
    · by_cases h3 : foldName m.1 = "email".data
      · simp only [h1, h2, h3, if_true, if_false, decide_True, decide_False, Bool.or_true,
          Bool.false_or, Bool.true_and]
        cases hv : m.2 <;> simp [saveError_ne_none]
      · simp [h1, h2, h3]

theorem foldl_storeMember_error (members : List (String × JSON))
    (st : Item × Option DecodeError) :
    (members.foldl storeMember st).2 = none ↔
      st.2 = none ∧ ∀ m ∈ members, illTyped m = false := by
  induction members generalizing st with
  | nil => simp
  | cons m ms ih =>
    rw [List.foldl_cons, ih, storeMember_error]
    constructor
    · rintro ⟨⟨h1, h2⟩, h3⟩
      refine ⟨h1, ?_⟩
      intro x hx
      rcases List.mem_cons.1 hx with hx | hx
      · rw [hx]; exact h2
      · exact h3 x hx
    · rintro ⟨h1, h2⟩
      exact ⟨⟨h1, h2 m (List.mem_cons_self _ _)⟩, fun x hx => h2 x (List.mem_cons_of_mem _ hx)⟩

/-- The fields an object body leaves in the item. -/
theorem Decode_object_fields (body : String) (members : List (String × JSON))
    (hv : firstValue body = some (.object members)) :
    (Decode body).1
      = ⟨memberString "id" members, memberString "name" members,
          memberString "email" members⟩ := by
  simp only [Decode, hv, unmarshal]
  rw [foldl_storeMember_fields]
  rfl

/-- Decoding an object body fails exactly when one of its members is ill typed. -/
theorem Decode_object_fails_iff (body : String) (members : List (String × JSON))
    (hv : firstValue body = some (.object members)) :
    (Decode body).2 ≠ none ↔ ∃ m ∈ members, illTyped m = true := by
  simp only [Decode, hv, unmarshal]
  rw [Ne, foldl_storeMember_error]
  simp

/-- The error `malformed` is only reported for a body without a JSON value. -/
theorem Decode_malformed_iff (body : String) :
    (Decode body).2 = some .malformed ↔ firstValue body = none := by
  constructor
  · intro h
    cases hv : firstValue body with
    | none => rfl
    | some v =>
      simp only [Decode, hv] at h
      cases v with
      | object members =>
        have := foldl_storeMember_malformed members _ h
        simp at this
      | null => simp [unmarshal] at h
      | bool b => simp [unmarshal] at h
      | number l => simp [unmarshal] at h
      | string s => simp [unmarshal] at h
      | array e => simp [unmarshal] at h
  · intro h
    simp only [Decode, h]

theorem Decode_malformed (body : String) (h : firstValue body = none) :
    Decode body = (Item.zero, some .malformed) := by
  simp only [Decode, h]

theorem Decode_not_object (body : String) (v : JSON) (hv : firstValue body = some v)
    (h : ∀ members, v ≠ .object members) : (Decode body).1 = Item.zero := by
  simp only [Decode, hv]
  cases v with
  | object members => exact absurd rfl (h members)
  | null => rfl
  | bool b => rfl
  | number l => rfl
  | string s => rfl
  | array e => rfl

theorem Table.mem_remove (t : Table) (key : AttributeValue) (item : AttrMap)
    (h : item ∈ Table.remove t key) : item ∈ t := by
  induction t with
  | nil => simp [Table.remove] at h
  | cons it t ih =>
    by_cases hk : AttrMap.get it "ID" = some key
    · rw [Table.remove, if_pos hk] at h
      exact List.mem_cons_of_mem _ (ih h)
    · rw [Table.remove, if_neg hk] at h
      rcases List.mem_cons.1 h with h | h
      · rw [h]; exact List.mem_cons_self _ _
      · exact List.mem_cons_of_mem _ (ih h)

theorem Table.find_mem (t : Table) (key : AttributeValue) (item : AttrMap)
    (h : Table.find t key = some item) : item ∈ t := by
  induction t with
  | nil => simp [Table.find] at h
  | cons it t ih =>
    by_cases hk : AttrMap.get it "ID" = some key
    · rw [Table.find, if_pos hk] at h
      injection h with h
      rw [h]; exact List.mem_cons_self _ _
    · rw [Table.find, if_neg hk] at h
      exact List.mem_cons_of_mem _ (ih h)

theorem isItem_created (i n e : String) :
    IsItem [("ID", .S i), ("Name", .S n), ("Email", .S e)] := by
  simp [IsItem, AttrMap.get, assertS]

theorem isItem_updatedItem (db : Table) (id name email : String) :
    IsItem (updatedItem db id name email) := by
  simp [IsItem, updatedItem_get_ID, updatedItem_get_Name, updatedItem_get_Email, assertS]

theorem holdsItems_serve (tableName : String) (db : Table) (req : Request)
    (h : HoldsItems db) : HoldsItems (serve tableName db req) := by
  cases req with
  | create body svcErr =>
    cases svcErr with
    | some err => simpa [serve, createItem_err] using h
    | none =>
      intro item hitem
      simp only [serve, createItem_ok, Table.store] at hitem
      rcases List.mem_cons.1 hitem with hi | hi
      · rw [hi]; exact isItem_created _ _ _
      · exact h item (Table.mem_remove _ _ _ hi)
  | update id body svcErr =>
    cases svcErr with
    | some err => simpa [serve, updateItem_err] using h
    | none =>
      intro item hitem
      simp only [serve, updateItem_ok, Table.store] at hitem
      rcases List.mem_cons.1 hitem with hi | hi
      · rw [hi]; exact isItem_updatedItem _ _ _ _
      · exact h item (Table.mem_remove _ _ _ hi)
  | delete id svcErr =>
    cases svcErr with
    | some err => simpa [serve, deleteItem_err] using h
    | none =>
      intro item hitem
      simp only [serve, deleteItem_ok] at hitem
      exact h item (Table.mem_remove _ _ _ hitem)

theorem holdsItems_foldl (tableName : String) (reqs : List Request) (db : Table)
    (h : HoldsItems db) : HoldsItems (reqs.foldl (serve tableName) db) := by
  induction reqs generalizing db with
  | nil => exact h
  | cons r rs ih => exact ih _ (holdsItems_serve tableName db r h)

theorem getItem_of_isItem (tableName : String) (db : Table) (id : String) (stored : AttrMap)
    (h : Table.find db (.S id) = some stored) (hs : IsItem stored) :
    ∃ n e, AttrMap.get stored "Name" = some (.S n) ∧ AttrMap.get stored "Email" = some (.S e) ∧
      (getItem tableName db id none).reply = .answer ⟨200, .encodedItem ⟨id, n, e⟩⟩ := by
  have hid := Table.find_key db _ stored h
  obtain ⟨_, hn, he⟩ := hs
  cases hn1 : AttrMap.get stored "Name" with
  | none => simp [hn1, assertS] at hn
  | some vn =>
    cases he1 : AttrMap.get stored "Email" with
    | none => simp [he1, assertS] at he
    | some ve =>
      cases vn <;> simp [hn1, assertS] at hn
      cases ve <;> simp [he1, assertS] at he
      rename_i n e
      exact ⟨n, e, rfl, rfl, by rw [getItem_found tableName db id stored id n e h hid hn1 he1]⟩

/-! ## What `createTableIfNotExists` does to the catalog -/

theorem Catalog.describe_append (cat : Catalog) (name : String) (schema : TableSchema)
    (h : Catalog.describe cat name = none) :
    Catalog.describe (cat ++ [(name, schema)]) name = some schema := by
  induction cat with
  | nil => simp [Catalog.describe]
  | cons p c ih =>
    obtain ⟨n, s⟩ := p
    by_cases hn : n = name
    · simp [Catalog.describe, hn] at h
    · simp only [Catalog.describe, hn, if_false] at h
      simp only [List.cons_append, Catalog.describe, hn, if_false]
      exact ih h

theorem createTableIfNotExists_exists (tableName : String) (cat : Catalog)
    (createFault : Option String) (schema : TableSchema)
    (h : Catalog.describe cat tableName = some schema) :
    createTableIfNotExists tableName cat none createFault
      = { err := none, catalog := cat, calls := [.DescribeTable tableName] } := by
  simp [createTableIfNotExists, DescribeTable, h]

theorem createTableIfNotExists_fault (tableName : String) (cat : Catalog)
    (createFault : Option String) (text : String) :
    createTableIfNotExists tableName cat (some text) createFault
      = { err := some ("failed to describe table: " ++ text), catalog := cat,
          calls := [.DescribeTable tableName] } := by
  simp [createTableIfNotExists, DescribeTable, isResourceNotFound, SvcError.Error]

theorem createTableIfNotExists_created (tableName : String) (cat : Catalog)
    (h : Catalog.describe cat tableName = none) :
    createTableIfNotExists tableName cat none none
      = { err := none, catalog := cat ++ [(tableName, itemTableSchema)],
          calls := [.DescribeTable tableName, .CreateTable tableName itemTableSchema] } := by
  simp [createTableIfNotExists, DescribeTable, CreateTable, isResourceNotFound, h]

theorem createTableIfNotExists_create_fault (tableName : String) (cat : Catalog) (text : String)
    (h : Catalog.describe cat tableName = none) :
    createTableIfNotExists tableName cat none (some text)
      = { err := some ("failed to create table: " ++ text), catalog := cat,
          calls := [.DescribeTable tableName, .CreateTable tableName itemTableSchema] } := by
  simp [createTableIfNotExists, DescribeTable, CreateTable, isResourceNotFound, h, SvcError.Error]

/-- After a run that returned nil the table exists. -/
theorem createTableIfNotExists_nil_exists (tableName : String) (cat : Catalog)
    (describeFault createFault : Option String)
    (h : (createTableIfNotExists tableName cat describeFault createFault).err = none) :
    ∃ schema, Catalog.describe
      (createTableIfNotExists tableName cat describeFault createFault).catalog tableName
        = some schema := by
  cases describeFault with
  | some text => simp [createTableIfNotExists_fault] at h
  | none =>
    cases hd : Catalog.describe cat tableName with
    | some schema =>
      exact ⟨schema, by rw [createTableIfNotExists_exists tableName cat _ schema hd]; exact hd⟩
    | none =>
      cases createFault with
      | some text => simp [createTableIfNotExists_create_fault tableName cat text hd] at h
      | none =>
        refine ⟨itemTableSchema, ?_⟩
        rw [createTableIfNotExists_created tableName cat hd]
        exact Catalog.describe_append cat tableName _ hd

theorem createTableIfNotExists_general (tableName : String) (cat : Catalog)
    (describeFault createFault : Option String) :
    ((∃ schema, AdminCall.CreateTable tableName schema
          ∈ (createTableIfNotExists tableName cat describeFault createFault).calls) ↔
        ∃ text, DescribeTable cat tableName describeFault
          = .error (.ResourceNotFoundException text)) ∧
      (∀ err, DescribeTable cat tableName describeFault = .error err →
        isResourceNotFound err = false →
        createTableIfNotExists tableName cat describeFault createFault
          = { err := some ("failed to describe table: " ++ err.Error), catalog := cat,
              calls := [.DescribeTable tableName] }) := by
  cases describeFault with
  | some text =>
    constructor
    · simp [createTableIfNotExists_fault, DescribeTable]
    · intro err he _
      simp only [DescribeTable] at he
      injection he with he
      subst he
      rw [createTableIfNotExists_fault]
      rfl
  | none =>
    cases hd : Catalog.describe cat tableName with
    | some schema =>
      constructor
      · simp [createTableIfNotExists_exists tableName cat _ schema hd, DescribeTable, hd]
      · intro err he _
        simp [DescribeTable, hd] at he
    | none =>
      constructor
      · constructor
        · intro _
          exact ⟨"Requested resource not found: Table: " ++ tableName ++ " not found", by
            simp only [DescribeTable, hd]⟩
        · intro _
          refine ⟨itemTableSchema, ?_⟩
          cases createFault with
          | some text => simp [createTableIfNotExists_create_fault tableName cat text hd]
          | none => simp [createTableIfNotExists_created tableName cat hd]
      · intro err he hnf
        simp only [DescribeTable, hd] at he
        injection he with he
        subst he
        simp [isResourceNotFound] at hnf

/-! ## The claims of the specification -/

/-- C1, as stated, fails when the `GetItem` call of the following `getItem`
returns an error: the item was stored by a successful `createItem`, and the
answer is 500, not 200 with the item. -/
theorem create_then_failed_get_answers_500 :
    (Decode "\x7b\"id\":\"u1\",\"name\":\"Alice\",\"email\":\"a@x.com\"\x7d").1
        = ⟨"u1", "Alice", "a@x.com"⟩ ∧
      (createItem "items" [] "\x7b\"id\":\"u1\",\"name\":\"Alice\",\"email\":\"a@x.com\"\x7d"
          none).reply = .answer ⟨201, .encodedString "Successfully added item"⟩ ∧
      (getItem "items"
          (createItem "items" [] "\x7b\"id\":\"u1\",\"name\":\"Alice\",\"email\":\"a@x.com\"\x7d"
            none).table
          "u1" (some (.other "connection reset"))).reply
        = .answer ⟨500, .text "Failed to get item: connection reset"⟩ ∧
      (getItem "items"
          (createItem "items" [] "\x7b\"id\":\"u1\",\"name\":\"Alice\",\"email\":\"a@x.com\"\x7d"
            none).table
          "u1" (some (.other "connection reset"))).reply
        ≠ .answer ⟨200, .encodedItem ⟨"u1", "Alice", "a@x.com"⟩⟩ := by
  decide

/-- C1, amended: on every table, when `createItem` runs with a body that
decodes to an item and its `PutItem` call succeeds, a following `getItem` on
the id of that item whose `GetItem` call returns no error answers 200 with an
item whose ID, Name and Email are the three posted values. -/
theorem create_then_get_returns_posted_item (tableName : String) (db : Table) (body : String)
    (item : Item) (putErr getErr : Option SvcError)
    (hbody : (Decode body).1 = item) (hput : putErr = none) (hget : getErr = none) :
    (getItem tableName (createItem tableName db body putErr).table item.ID getErr).reply
      = .answer ⟨200, .encodedItem item⟩ := by
  subst hput hget hbody
  rw [createItem_ok]
  rw [getItem_found tableName _ _ _ (Decode body).1.ID (Decode body).1.Name (Decode body).1.Email
    (Table.find_store_self _ _ _ (by simp [AttrMap.get])) (by simp [AttrMap.get])
    (by simp [AttrMap.get]) (by simp [AttrMap.get])]

/-- The amended C1 on a table that holds an older item under the posted id. -/
theorem create_then_get_returns_posted_item_witness :
    (getItem "items"
        (createItem "items" [[("ID", .S "u1"), ("Name", .S "Old"), ("Email", .S "old@x.com")]]
          "\x7b\"id\":\"u1\",\"name\":\"Alice\",\"email\":\"a@x.com\"\x7d" none).table
        "u1" none).reply
      = .answer ⟨200, .encodedItem ⟨"u1", "Alice", "a@x.com"⟩⟩ :=
  create_then_get_returns_posted_item "items"
    [[("ID", .S "u1"), ("Name", .S "Old"), ("Email", .S "old@x.com")]]
    "\x7b\"id\":\"u1\",\"name\":\"Alice\",\"email\":\"a@x.com\"\x7d"
    ⟨"u1", "Alice", "a@x.com"⟩ none none (by decide) rfl rfl

/-- C2: for every id that is not a key of the table, `getItem` answers 404
with the text "Could not find item" whenever its `GetItem` call returns no
error, it answers 500 with the error text when the call returns an error, and
so a status 500 is only ever the answer to a failed call. -/
theorem get_missing_is_not_found (tableName : String) (db : Table) (id : String)
    (svcErr : Option SvcError) (hmissing : Table.find db (.S id) = none) :
    (svcErr = none →
        (getItem tableName db id svcErr).reply = .answer ⟨404, .text "Could not find item"⟩) ∧
      (∀ err, svcErr = some err →
        (getItem tableName db id svcErr).reply
          = .answer ⟨500, .text ("Failed to get item: " ++ err.Error)⟩) ∧
      (∀ r, (getItem tableName db id svcErr).reply = .answer r → r.status = 500 →
        ∃ err, svcErr = some err) := by
  cases svcErr with
  | none =>
    refine ⟨fun _ => ?_, fun err h => (by cases h), fun r hr hs => ?_⟩
    · rw [getItem_missing tableName db id hmissing]
    · rw [getItem_missing tableName db id hmissing] at hr
      injection hr with hr
      subst hr
      simp at hs
  | some err =>
    refine ⟨fun h => (by cases h), fun e h => ?_, fun _ _ _ => ⟨err, rfl⟩⟩
    cases h
    rw [getItem_err]

/-- C2 for the id "u2" on a table that holds "u1" only. -/
theorem get_missing_is_not_found_witness :
    (getItem "items" [[("ID", .S "u1"), ("Name", .S "Alice"), ("Email", .S "a@x.com")]]
        "u2" none).reply = .answer ⟨404, .text "Could not find item"⟩ :=
  (get_missing_is_not_found "items"
    [[("ID", .S "u1"), ("Name", .S "Alice"), ("Email", .S "a@x.com")]] "u2" none
    (by decide)).1 rfl

/-- C3 on the code: `updateItem` names the attribute `Name` bare in its update
expression (main.go 152) and sends no `ExpressionAttributeNames`; NAME is a
reserved word, so DynamoDB answers the request with a `ValidationException`.
For the missing id "u1" on the empty table the handler then answers 500, not
200, stores nothing, and a following `getItem` on the id answers 404, not 200
with the item: the update does not create the item. -/
theorem update_of_missing_id_is_refused :
    Table.find [] (.S "u1") = none ∧
      (Decode "\x7b\"name\":\"Alice2\",\"email\":\"a2@x.com\"\x7d").1 = ⟨"", "Alice2", "a2@x.com"⟩ ∧
      reservedWordVerdict ⟨"items", [("ID", .S "u1")], "set Name = :n, Email = :e",
          [(":n", .S "Alice2"), (":e", .S "a2@x.com")], "UPDATED_NEW"⟩
        = some (.ValidationException
            "Invalid UpdateExpression: Attribute name is a reserved keyword; reserved keyword: Name") ∧
      updateItem "items" [] "u1" "\x7b\"name\":\"Alice2\",\"email\":\"a2@x.com\"\x7d"
          (reservedWordVerdict ⟨"items", [("ID", .S "u1")], "set Name = :n, Email = :e",
            [(":n", .S "Alice2"), (":e", .S "a2@x.com")], "UPDATED_NEW"⟩)
        = { reply := .answer ⟨500, .text
              "Failed to update item: Invalid UpdateExpression: Attribute name is a reserved keyword; reserved keyword: Name"⟩
            table := []
            calls := [.UpdateItem ⟨"items", [("ID", .S "u1")], "set Name = :n, Email = :e",
              [(":n", .S "Alice2"), (":e", .S "a2@x.com")], "UPDATED_NEW"⟩] } ∧
      (getItem "items"
          (updateItem "items" [] "u1" "\x7b\"name\":\"Alice2\",\"email\":\"a2@x.com\"\x7d"
            (reservedWordVerdict ⟨"items", [("ID", .S "u1")], "set Name = :n, Email = :e",
              [(":n", .S "Alice2"), (":e", .S "a2@x.com")], "UPDATED_NEW"⟩)).table
          "u1" none).reply = .answer ⟨404, .text "Could not find item"⟩ := by
  decide

/-- C4, as stated, fails when the `GetItem` call of the following `getItem`
returns an error: both deletes succeeded, and the answer is 500, not 404. -/
theorem delete_twice_then_failed_get_answers_500 :
    (deleteItem "items" [[("ID", .S "u1"), ("Name", .S "Alice"), ("Email", .S "a@x.com")]]
        "u1" none).reply = .answer ⟨200, .encodedString "Successfully deleted item"⟩ ∧
      (deleteItem "items"
          (deleteItem "items" [[("ID", .S "u1"), ("Name", .S "Alice"), ("Email", .S "a@x.com")]]
            "u1" none).table
          "u1" none).reply = .answer ⟨200, .encodedString "Successfully deleted item"⟩ ∧
      (getItem "items"
          (deleteItem "items"
            (deleteItem "items"
              [[("ID", .S "u1"), ("Name", .S "Alice"), ("Email", .S "a@x.com")]] "u1" none).table
            "u1" none).table
          "u1" (some (.other "service unavailable"))).reply
        = .answer ⟨500, .text "Failed to get item: service unavailable"⟩ ∧
      (getItem "items"
          (deleteItem "items"
            (deleteItem "items"
              [[("ID", .S "u1"), ("Name", .S "Alice"), ("Email", .S "a@x.com")]] "u1" none).table
            "u1" none).table
          "u1" (some (.other "service unavailable"))).reply
        ≠ .answer ⟨404, .text "Could not find item"⟩ := by
  decide

/-- C4, amended: on every table and for every id, stored or not, two
successive `deleteItem` requests on the id whose `DeleteItem` calls return no
error both answer 200 with the success message, the table after the second is
the table after the first, and a following `getItem` on the id whose `GetItem`
call returns no error answers 404. -/
theorem delete_twice_is_delete_once (tableName : String) (db : Table) (id : String)
    (delErr1 delErr2 getErr : Option SvcError)
    (hdel1 : delErr1 = none) (hdel2 : delErr2 = none) (hget : getErr = none) :
    (deleteItem tableName db id delErr1).reply
        = .answer ⟨200, .encodedString "Successfully deleted item"⟩ ∧
      (deleteItem tableName (deleteItem tableName db id delErr1).table id delErr2).reply
        = .answer ⟨200, .encodedString "Successfully deleted item"⟩ ∧
      (deleteItem tableName (deleteItem tableName db id delErr1).table id delErr2).table
        = (deleteItem tableName db id delErr1).table ∧
      (getItem tableName
          (deleteItem tableName (deleteItem tableName db id delErr1).table id delErr2).table
          id getErr).reply
        = .answer ⟨404, .text "Could not find item"⟩ := by
  subst hdel1 hdel2 hget
  refine ⟨?_, ?_, ?_, ?_⟩
  · rw [deleteItem_ok]
  · rw [deleteItem_ok, deleteItem_ok]
  · rw [deleteItem_ok, deleteItem_ok, Table.remove_remove]
  · rw [deleteItem_ok, deleteItem_ok, Table.remove_remove,
      getItem_missing tableName _ id (Table.find_remove_self db _)]

/-- The amended C4 for an id that is stored before the first delete. -/
theorem delete_twice_is_delete_once_witness :
    (deleteItem "items" [[("ID", .S "u1"), ("Name", .S "Alice"), ("Email", .S "a@x.com")]]
        "u1" none).table = [] ∧
      (getItem "items"
          (deleteItem "items"
            (deleteItem "items"
              [[("ID", .S "u1"), ("Name", .S "Alice"), ("Email", .S "a@x.com")]] "u1" none).table
            "u1" none).table "u1" none).reply
        = .answer ⟨404, .text "Could not find item"⟩ :=
  ⟨by decide,
    (delete_twice_is_delete_once "items"
      [[("ID", .S "u1"), ("Name", .S "Alice"), ("Email", .S "a@x.com")]] "u1" none none none
      rfl rfl rfl).2.2.2⟩

/-- C5, as stated, fails when the `DescribeTable` call of the second run
returns an error: the first run returned nil, the table exists, and the second
run returns the error "failed to describe table", not nil.  And a table that
was there before the first run keeps the schema it had, which need not be the
one with the partition key `ID` and the capacity 5 and 5. -/
theorem second_provisioning_run_can_fail :
    (createTableIfNotExists "items" [("items", itemTableSchema)] none none).err = none ∧
      (createTableIfNotExists "items"
          (createTableIfNotExists "items" [("items", itemTableSchema)] none none).catalog
          (some "request timeout") none).err
        = some "failed to describe table: request timeout" ∧
      (createTableIfNotExists "items"
          (createTableIfNotExists "items" [("items", itemTableSchema)] none none).catalog
          (some "request timeout") none).err ≠ none ∧
      (createTableIfNotExists "items" [("items", ⟨[("PK", "S")], [("PK", "HASH")], (1, 1)⟩)]
          none none).err = none ∧
      Catalog.describe
          (createTableIfNotExists "items"
            (createTableIfNotExists "items"
              [("items", ⟨[("PK", "S")], [("PK", "HASH")], (1, 1)⟩)] none none).catalog
            none none).catalog "items"
        = some ⟨[("PK", "S")], [("PK", "HASH")], (1, 1)⟩ := by
  decide

/-- C5, amended: for every catalog, when `createTableIfNotExists` is run twice
in succession and the first run returns nil, the second run makes the
`DescribeTable` call only (no `CreateTable` call), leaves the catalog, and so
the schema of the table, as the first run left it, and returns nil when its
`DescribeTable` call is answered; when that call fails, the failure is
returned as the error "failed to describe table".  The schema is the fixed one
(partition key `ID` of type string, capacity 5 and 5) when the first run
created the table.  In general `CreateTable` is called exactly when
`DescribeTable` fails with the resource-not-found error, and any other
`DescribeTable` error is returned as an error, with the catalog unchanged and
no further call. -/
theorem provisioning_is_idempotent (tableName : String) (cat : Catalog)
    (describeFault1 createFault1 describeFault2 createFault2 : Option String)
    (hfirst : (createTableIfNotExists tableName cat describeFault1 createFault1).err = none) :
    (createTableIfNotExists tableName
        (createTableIfNotExists tableName cat describeFault1 createFault1).catalog
        describeFault2 createFault2).calls = [.DescribeTable tableName] ∧
      (createTableIfNotExists tableName
        (createTableIfNotExists tableName cat describeFault1 createFault1).catalog
        describeFault2 createFault2).catalog
        = (createTableIfNotExists tableName cat describeFault1 createFault1).catalog ∧
      (describeFault2 = none →
        (createTableIfNotExists tableName
          (createTableIfNotExists tableName cat describeFault1 createFault1).catalog
          describeFault2 createFault2).err = none) ∧
      (∀ text, describeFault2 = some text →
        (createTableIfNotExists tableName
          (createTableIfNotExists tableName cat describeFault1 createFault1).catalog
          describeFault2 createFault2).err = some ("failed to describe table: " ++ text)) ∧
      (Catalog.describe cat tableName = none →
        Catalog.describe (createTableIfNotExists tableName cat describeFault1 createFault1).catalog
          tableName = some itemTableSchema) ∧
      (∀ schema, Catalog.describe cat tableName = some schema →
        (createTableIfNotExists tableName cat describeFault1 createFault1).catalog = cat) ∧
      (∀ (cat0 : Catalog) (d c : Option String),
        ((∃ schema, AdminCall.CreateTable tableName schema
              ∈ (createTableIfNotExists tableName cat0 d c).calls) ↔
            ∃ text, DescribeTable cat0 tableName d = .error (.ResourceNotFoundException text)) ∧
          (∀ err, DescribeTable cat0 tableName d = .error err → isResourceNotFound err = false →
            createTableIfNotExists tableName cat0 d c
              = { err := some ("failed to describe table: " ++ err.Error), catalog := cat0,
                  calls := [.DescribeTable tableName] })) := by
  obtain ⟨schema, hs⟩ :=
    createTableIfNotExists_nil_exists tableName cat describeFault1 createFault1 hfirst
  have hsecond : ∀ d2 : Option String,
      (createTableIfNotExists tableName
        (createTableIfNotExists tableName cat describeFault1 createFault1).catalog
        d2 createFault2).calls = [.DescribeTable tableName] ∧
      (createTableIfNotExists tableName
        (createTableIfNotExists tableName cat describeFault1 createFault1).catalog
        d2 createFault2).catalog
        = (createTableIfNotExists tableName cat describeFault1 createFault1).catalog := by
    intro d2
    cases d2 with
    | some text => rw [createTableIfNotExists_fault]; exact ⟨rfl, rfl⟩
    | none => rw [createTableIfNotExists_exists tableName _ _ schema hs]; exact ⟨rfl, rfl⟩
  refine ⟨(hsecond _).1, (hsecond _).2, ?_, ?_, ?_, ?_, ?_⟩
  · intro h2
    subst h2
    rw [createTableIfNotExists_exists tableName _ _ schema hs]
  · intro text h2
    subst h2
    rw [createTableIfNotExists_fault]
  · intro hnone
    cases describeFault1 with
    | some text => simp [createTableIfNotExists_fault] at hfirst
    | none =>
      cases createFault1 with
      | some text => simp [createTableIfNotExists_create_fault tableName cat text hnone] at hfirst
      | none =>
        rw [createTableIfNotExists_created tableName cat hnone]
        exact Catalog.describe_append cat tableName _ hnone
  · intro schema0 h0
    cases describeFault1 with
    | some text => rw [createTableIfNotExists_fault]
    | none => rw [createTableIfNotExists_exists tableName cat _ schema0 h0]
  · intro cat0 d c
    exact createTableIfNotExists_general tableName cat0 d c

/-- The amended C5 on a catalog without the table: the first run creates it,
the second finds it. -/
theorem provisioning_is_idempotent_witness :
    (createTableIfNotExists "items" (createTableIfNotExists "items" [] none none).catalog
        none none).calls = [.DescribeTable "items"] ∧
      (createTableIfNotExists "items" (createTableIfNotExists "items" [] none none).catalog
        none none).err = none ∧
      Catalog.describe (createTableIfNotExists "items" [] none none).catalog "items"
        = some itemTableSchema :=
  have h := provisioning_is_idempotent "items" [] none none none none (by decide)
  ⟨h.1, h.2.2.1 rfl, h.2.2.2.2.1 (by decide)⟩

/-- C6, as stated, fails for `getItem` on a stored entry that lacks one of the
three string attributes: the `GetItem` call succeeds and returns the entry, the
type assertion on the missing `Name` panics, and no status is written at all. -/
theorem get_of_foreign_entry_panics :
    Table.find [[("ID", .S "u1")]] (.S "u1") = some [("ID", .S "u1")] ∧
      GetItem [[("ID", .S "u1")]] ⟨"items", [("ID", .S "u1")]⟩ none
        = .ok (some [("ID", .S "u1")]) ∧
      (getItem "items" [[("ID", .S "u1")]] "u1" none).reply = .panic ∧
      ∀ r, (getItem "items" [[("ID", .S "u1")]] "u1" none).reply ≠ .answer r := by
  refine ⟨by decide, rfl, by decide, ?_⟩
  intro r h
  have hp : (getItem "items" [[("ID", .S "u1")]] "u1" none).reply = .panic := by decide
  rw [hp] at h
  cases h

/-- C6, amended: each handler makes exactly one database call per request and
its response is decided by the outcome of that call.  When the call returns an
error the status is 500 and the body is "Failed to add/get/update/delete item: "
followed by the error text.  When the call succeeds the status is 201 with
"Successfully added item" for `createItem`, 200 with "Successfully updated
item" for `updateItem`, 200 with "Successfully deleted item" for `deleteItem`,
and for `getItem` 404 when no item is stored under the id and 200 when the
stored item holds `ID`, `Name` and `Email` as strings. -/
theorem status_decided_by_call_outcome (tableName : String) (db : Table) (id body : String)
    (svcErr : Option SvcError) :
    ((createItem tableName db body svcErr).calls.length = 1 ∧
        (∀ err, svcErr = some err → (createItem tableName db body svcErr).reply
          = .answer ⟨500, .text ("Failed to add item: " ++ err.Error)⟩) ∧
        (svcErr = none → (createItem tableName db body svcErr).reply
          = .answer ⟨201, .encodedString "Successfully added item"⟩)) ∧
      ((updateItem tableName db id body svcErr).calls.length = 1 ∧
        (∀ err, svcErr = some err → (updateItem tableName db id body svcErr).reply
          = .answer ⟨500, .text ("Failed to update item: " ++ err.Error)⟩) ∧
        (svcErr = none → (updateItem tableName db id body svcErr).reply
          = .answer ⟨200, .encodedString "Successfully updated item"⟩)) ∧
      ((deleteItem tableName db id svcErr).calls.length = 1 ∧
        (∀ err, svcErr = some err → (deleteItem tableName db id svcErr).reply
          = .answer ⟨500, .text ("Failed to delete item: " ++ err.Error)⟩) ∧
        (svcErr = none → (deleteItem tableName db id svcErr).reply
          = .answer ⟨200, .encodedString "Successfully deleted item"⟩)) ∧
      ((getItem tableName db id svcErr).calls.length = 1 ∧
        (∀ err, svcErr = some err → (getItem tableName db id svcErr).reply
          = .answer ⟨500, .text ("Failed to get item: " ++ err.Error)⟩) ∧
        (svcErr = none → Table.find db (.S id) = none →
          (getItem tableName db id svcErr).reply
            = .answer ⟨404, .text "Could not find item"⟩) ∧
        (svcErr = none → ∀ stored, Table.find db (.S id) = some stored → IsItem stored →
          ∃ item, (getItem tableName db id svcErr).reply
            = .answer ⟨200, .encodedItem item⟩)) := by
  cases svcErr with
  | some err =>
    rw [createItem_err, updateItem_err, deleteItem_err, getItem_err]
    refine ⟨⟨rfl, ?_, ?_⟩, ⟨rfl, ?_, ?_⟩, ⟨rfl, ?_, ?_⟩, ⟨rfl, ?_, ?_, ?_⟩⟩
    · intro e h; cases h; rfl
    · intro h; cases h
    · intro e h; cases h; rfl
    · intro h; cases h
    · intro e h; cases h; rfl
    · intro h; cases h
    · intro e h; cases h; rfl
    · intro h; cases h
    · intro h; cases h
  | none =>
    rw [createItem_ok, updateItem_ok, deleteItem_ok]
    refine ⟨⟨rfl, ?_, ?_⟩, ⟨rfl, ?_, ?_⟩, ⟨rfl, ?_, ?_⟩, ⟨?_, ?_, ?_, ?_⟩⟩
    · intro err h; cases h
    · intro _; rfl
    · intro err h; cases h
    · intro _; rfl
    · intro err h; cases h
    · intro _; rfl
    · cases hf : Table.find db (.S id) with
      | none => rw [getItem_missing tableName db id hf]; rfl
      | some stored =>
        unfold getItem GetItem
        simp only [AttrMap.get, if_true, hf]
        split <;> rfl
    · intro err h; cases h
    · intro _ hf
      rw [getItem_missing tableName db id hf]
    · intro _ stored hf hs
      obtain ⟨n, e, _, _, h⟩ := getItem_of_isItem tableName db id stored hf hs
      exact ⟨_, h⟩

/-- The amended C6 for a failed `PutItem` call and for a stored item. -/
theorem status_decided_by_call_outcome_witness :
    (createItem "items" [] "\x7b\"id\":\"u1\"\x7d" (some (.other "throttled"))).reply
        = .answer ⟨500, .text "Failed to add item: throttled"⟩ ∧
      ∃ item, (getItem "items" [[("ID", .S "u1"), ("Name", .S "Alice"), ("Email", .S "a@x.com")]]
        "u1" none).reply = .answer ⟨200, .encodedItem item⟩ :=
  have h := status_decided_by_call_outcome "items"
    [[("ID", .S "u1"), ("Name", .S "Alice"), ("Email", .S "a@x.com")]] "u1"
    "\x7b\"id\":\"u1\"\x7d"
  ⟨by decide, (h none).2.2.2.2.2.2 rfl
    [("ID", .S "u1"), ("Name", .S "Alice"), ("Email", .S "a@x.com")] (by decide) (by decide)⟩

/-- C7, as stated, fails for a body whose JSON is well formed but holds a value
of the wrong type: decoding the body below fails (the number 5 does not fit the
string field `Name`), the member `id` read before it stays decoded, and the
item passed to `PutItem` has the ID "x", not the empty string. -/
theorem failed_decode_keeps_decoded_fields :
    Decode "\x7b\"id\":\"x\",\"name\":5\x7d"
        = (⟨"x", "", ""⟩, some (.unmarshalType "number" "name")) ∧
      (createItem "items" [] "\x7b\"id\":\"x\",\"name\":5\x7d" none).calls
        = [.PutItem ⟨"items", [("ID", .S "x"), ("Name", .S ""), ("Email", .S "")]⟩] ∧
      (createItem "items" [] "\x7b\"id\":\"x\",\"name\":5\x7d" none).calls
        ≠ [.PutItem ⟨"items", [("ID", .S ""), ("Name", .S ""), ("Email", .S "")]⟩] ∧
      (updateItem "items" [] "u1" "\x7b\"name\":\"n\",\"email\":5\x7d" none).calls
        = [.UpdateItem ⟨"items", [("ID", .S "u1")], "set Name = :n, Email = :e",
            [(":n", .S "n"), (":e", .S "")], "UPDATED_NEW"⟩] := by
  decide

/-- C7, amended: for every request body that fails JSON decoding into `Item`,
`createItem` and `updateItem` do not reject the request.  The decode error is
dropped and the one database call is made with the fields as the decoder left
them.  All three are empty when the body holds no complete JSON value or when
its first JSON value is not an object.  When it is an object, decoding fails
exactly when a member that names a field holds neither a string nor null, and
each field then still holds the string of the last member that names it with a
string (the empty string when there is none).  The response is 201 for
`createItem` and 200 for `updateItem` when the call succeeds and 500 with the
text of the call error when it fails, and it is the same for every other body:
the decode error never reaches the client. -/
theorem decode_failure_is_not_rejected (tableName : String) (db : Table) (id body : String)
    (svcErr : Option SvcError) (decodeErr : DecodeError)
    (hfail : (Decode body).2 = some decodeErr) :
    (createItem tableName db body svcErr).calls
        = [.PutItem ⟨tableName, [("ID", .S (Decode body).1.ID), ("Name", .S (Decode body).1.Name),
            ("Email", .S (Decode body).1.Email)]⟩] ∧
      (updateItem tableName db id body svcErr).calls
        = [.UpdateItem ⟨tableName, [("ID", .S id)], "set Name = :n, Email = :e",
            [(":n", .S (Decode body).1.Name), (":e", .S (Decode body).1.Email)],
            "UPDATED_NEW"⟩] ∧
      (decodeErr = .malformed ↔ firstValue body = none) ∧
      (firstValue body = none → (Decode body).1 = ⟨"", "", ""⟩) ∧
      (∀ v, firstValue body = some v → (∀ members, v ≠ .object members) →
        (Decode body).1 = ⟨"", "", ""⟩) ∧
      (∀ members, firstValue body = some (.object members) →
        (∃ m ∈ members, illTyped m = true) ∧
          (Decode body).1
            = ⟨memberString "id" members, memberString "name" members,
                memberString "email" members⟩) ∧
      (svcErr = none →
        (createItem tableName db body svcErr).reply
            = .answer ⟨201, .encodedString "Successfully added item"⟩ ∧
          (updateItem tableName db id body svcErr).reply
            = .answer ⟨200, .encodedString "Successfully updated item"⟩) ∧
      (∀ err, svcErr = some err →
        (createItem tableName db body svcErr).reply
            = .answer ⟨500, .text ("Failed to add item: " ++ err.Error)⟩ ∧
          (updateItem tableName db id body svcErr).reply
            = .answer ⟨500, .text ("Failed to update item: " ++ err.Error)⟩) ∧
      (∀ body2,
        (createItem tableName db body2 svcErr).reply = (createItem tableName db body svcErr).reply ∧
          (updateItem tableName db id body2 svcErr).reply
            = (updateItem tableName db id body svcErr).reply) := by
  refine ⟨?_, ?_, ?_, ?_, ?_, ?_, ?_, ?_, ?_⟩
  · cases svcErr with
    | none => rw [createItem_ok]
    | some err => rw [createItem_err]
  · cases svcErr with
    | none => rw [updateItem_ok]
    | some err => rw [updateItem_err]
  · constructor
    · intro h
      subst h
      exact (Decode_malformed_iff body).1 hfail
    · intro h
      rw [Decode_malformed body h] at hfail
      injection hfail with hfail
      exact hfail.symm
  · intro h
    rw [Decode_malformed body h]
    rfl
  · intro v hv hno
    exact Decode_not_object body v hv hno
  · intro members hv
    refine ⟨?_, Decode_object_fields body members hv⟩
    have herr : (Decode body).2 ≠ none := by rw [hfail]; exact Option.some_ne_none _
    exact (Decode_object_fails_iff body members hv).1 herr
  · intro h
    subst h
    rw [createItem_ok, updateItem_ok]
    exact ⟨rfl, rfl⟩
  · intro err h
    subst h
    rw [createItem_err, updateItem_err]
    exact ⟨rfl, rfl⟩
  · intro body2
    cases svcErr with
    | none => rw [createItem_ok, createItem_ok, updateItem_ok, updateItem_ok]; exact ⟨rfl, rfl⟩
    | some err =>
      rw [createItem_err, createItem_err, updateItem_err, updateItem_err]; exact ⟨rfl, rfl⟩

/-- The amended C7 for an object, written with blanks and with keys in mixed
case, whose last member gives `id` a number: the decoding fails, the strings of
the three earlier members stay, and `createItem` stores them and answers 201. -/
theorem decode_failure_is_not_rejected_witness :
    Decode " \x7b \"id\": \"x\",\n\t\"Name\" : \"n\", \"EMAIL\":\"e\", \"Id\": 5 \x7d\n"
        = (⟨"x", "n", "e"⟩, some (.unmarshalType "number" "id")) ∧
      (createItem "items" [] " \x7b \"id\": \"x\",\n\t\"Name\" : \"n\", \"EMAIL\":\"e\", \"Id\": 5 \x7d\n"
        none).calls = [.PutItem ⟨"items", [("ID", .S "x"), ("Name", .S "n"), ("Email", .S "e")]⟩] ∧
      (createItem "items" [] " \x7b \"id\": \"x\",\n\t\"Name\" : \"n\", \"EMAIL\":\"e\", \"Id\": 5 \x7d\n"
        none).reply = .answer ⟨201, .encodedString "Successfully added item"⟩ :=
  have h := decode_failure_is_not_rejected "items" [] "u1"
    " \x7b \"id\": \"x\",\n\t\"Name\" : \"n\", \"EMAIL\":\"e\", \"Id\": 5 \x7d\n" none
    (.unmarshalType "number" "id") (by decide)
  ⟨by decide, by decide, (h.2.2.2.2.2.2.1 rfl).1⟩

/-- C8 on the code: the body "invalid json" is not valid JSON, and `createItem`
answers 201 with "Successfully added item" when the `PutItem` call succeeds,
after passing an item with three empty fields to `PutItem` and storing it; the
status is not 400 and no "Invalid request payload" is written. -/
theorem invalid_json_is_stored_not_rejected :
    Decode "invalid json" = (⟨"", "", ""⟩, some .malformed) ∧
      createItem "items" [] "invalid json" none
        = { reply := .answer ⟨201, .encodedString "Successfully added item"⟩
            table := [[("ID", .S ""), ("Name", .S ""), ("Email", .S "")]]
            calls := [.PutItem ⟨"items", [("ID", .S ""), ("Name", .S ""), ("Email", .S "")]⟩] } ∧
      createItem "items" [] "invalid json" (some (.other "throttled"))
        = { reply := .answer ⟨500, .text "Failed to add item: throttled"⟩
            table := []
            calls := [.PutItem ⟨"items", [("ID", .S ""), ("Name", .S ""), ("Email", .S "")]⟩] } := by
  decide

/-- C9 on the code: on every table, for every path id and body, the request
`updateItem` sends names `Name` bare and is answered by DynamoDB with the
`ValidationException` for the reserved word; with that answer the handler
replies 500 and the table is the one before the request, so the entry under
the path id keeps the `Name` and `Email` it had instead of taking those of the
body.  No `updateItem` request is a successful one. -/
theorem update_is_refused_and_changes_nothing (tableName : String) (db : Table)
    (id body : String) :
    (updateItem tableName db id body none).calls
        = [.UpdateItem ⟨tableName, [("ID", .S id)], "set Name = :n, Email = :e",
            [(":n", .S (Decode body).1.Name), (":e", .S (Decode body).1.Email)],
            "UPDATED_NEW"⟩] ∧
      reservedWordVerdict ⟨tableName, [("ID", .S id)], "set Name = :n, Email = :e",
          [(":n", .S (Decode body).1.Name), (":e", .S (Decode body).1.Email)], "UPDATED_NEW"⟩
        = some (.ValidationException
            "Invalid UpdateExpression: Attribute name is a reserved keyword; reserved keyword: Name") ∧
      (updateItem tableName db id body
          (reservedWordVerdict ⟨tableName, [("ID", .S id)], "set Name = :n, Email = :e",
            [(":n", .S (Decode body).1.Name), (":e", .S (Decode body).1.Email)],
            "UPDATED_NEW"⟩)).reply
        = .answer ⟨500, .text
            "Failed to update item: Invalid UpdateExpression: Attribute name is a reserved keyword; reserved keyword: Name"⟩ ∧
      (updateItem tableName db id body
          (reservedWordVerdict ⟨tableName, [("ID", .S id)], "set Name = :n, Email = :e",
            [(":n", .S (Decode body).1.Name), (":e", .S (Decode body).1.Email)],
            "UPDATED_NEW"⟩)).table = db ∧
      Table.find
          (updateItem "items"
            [[("ID", .S "u1"), ("Name", .S "Alice"), ("Email", .S "a@x.com")]] "u1"
            "\x7b\"name\":\"Alice2\",\"email\":\"a2@x.com\"\x7d"
            (reservedWordVerdict ⟨"items", [("ID", .S "u1")], "set Name = :n, Email = :e",
              [(":n", .S "Alice2"), (":e", .S "a2@x.com")], "UPDATED_NEW"⟩)).table (.S "u1")
        = some [("ID", .S "u1"), ("Name", .S "Alice"), ("Email", .S "a@x.com")] := by
  have hv : ∀ (t : String) (k v : AttrMap),
      reservedWordVerdict ⟨t, k, "set Name = :n, Email = :e", v, "UPDATED_NEW"⟩
        = some (.ValidationException
            "Invalid UpdateExpression: Attribute name is a reserved keyword; reserved keyword: Name") := by
    intro t k v
    simp only [reservedWordVerdict, parseUpdate_set_name_email]
    rfl
  refine ⟨by rw [updateItem_ok], hv _ _ _, ?_, ?_, ?_⟩
  · rw [hv, updateItem_err]
    rfl
  · rw [hv, updateItem_err]
  · rw [hv, updateItem_err]
    decide

/-- C10: starting from the empty table, after any sequence of `createItem`,
`updateItem` and `deleteItem` requests, whatever their bodies, ids and call
outcomes, every stored entry carries `ID`, `Name` and `Email` as string values;
hence on every such table and for every id and call outcome the type
assertions of `getItem` succeed: it does not panic and answers 200, 404 or
500. -/
theorem reachable_tables_hold_items (tableName : String) (reqs : List Request) :
    (∀ item ∈ serveAll tableName reqs, IsItem item) ∧
      ∀ (id : String) (svcErr : Option SvcError),
        ∃ r, (getItem tableName (serveAll tableName reqs) id svcErr).reply = .answer r ∧
          (r.status = 200 ∨ r.status = 404 ∨ r.status = 500) := by
  have hinv : HoldsItems (serveAll tableName reqs) :=
    holdsItems_foldl tableName reqs [] (fun item h => by cases h)
  refine ⟨hinv, ?_⟩
  intro id svcErr
  cases svcErr with
  | some err => exact ⟨_, by rw [getItem_err], Or.inr (Or.inr rfl)⟩
  | none =>
    cases hf : Table.find (serveAll tableName reqs) (.S id) with
    | none => exact ⟨_, by rw [getItem_missing tableName _ id hf], Or.inr (Or.inl rfl)⟩
    | some stored =>
      obtain ⟨n, e, _, _, h⟩ := getItem_of_isItem tableName _ id stored hf
        (hinv stored (Table.find_mem _ _ _ hf))
      exact ⟨_, h, Or.inl rfl⟩

end GoDynamoDBCrud
